import Mathlib

/-!
# Locomotion blend controller of `skeletal_animation.cpp`

A shallow embedding of the body of the render loop in
`src/assignment4-simple-character-animation/skeletal_animation.cpp`: the blend state
switch (lines 200-346) and the root-motion extraction that follows it (lines 348-397),
together with the globals they read and write and the helper functions they call.

Modelling conventions
* `float` values are exact rationals (`ℚ`): `+`, `std::min` and `>=` are the exact
  operations, and the literal `0.00001f` is the rational `1 / 100000`.
* Pointers to the three clips loaded in `main` are values of the enumeration `Clip`;
  a nullable pointer is an `Option Clip`.
* The two keyboard polls of a frame are the two `Bool` arguments of `blendSwitch`.
-/

/-!
# Rounding to IEEE 754 binary32

The programs compute in `float`. Where a statement depends on the rounding of one
operation, that operation is evaluated with `Binary32.roundFloat32`, which rounds an
exact value to the nearest number with 24 significant bits, ties to the even neighbour.
Overflow and subnormal numbers are not modelled: every use stays in the normal range.
-/

namespace Binary32

end Binary32

namespace SkeletalAnimation

/-- The `enum class MovementState` of the source. -/
inductive MovementState where
  | IDLE
  | WALK
  | RUN
  deriving DecidableEq, Repr

/-- The `enum class AnimBlendState` of the source. -/
inductive AnimBlendState where
  | IDLE
  | IDLE_TO_WALK
  | WALK
  | WALK_TO_IDLE
  | WALK_TO_RUN
  | RUN
  | RUN_TO_WALK
  deriving DecidableEq, Repr

/-- The three `Animation` objects created in `main`, identified by their variable. -/
inductive Clip where
  | idleAnimation
  | walkAnimation
  | runAnimation
  deriving DecidableEq, Repr

/-- The arguments of one call of `animator.PlayAnimation`. -/
structure PlayCall where
  pAnimation : Clip
  pAnimation2 : Option Clip
  time1 : ℚ
  time2 : ℚ
  blend : ℚ
  deriving DecidableEq, Repr

/-- Modelled from the spec: the `Animator` of `learnopengl/animator.h`, which is not part
of the sources. Only the fields the render loop reads or passes are kept: the clip pair,
the two play-heads and the blend weight. -/
structure Animator where
  m_CurrentAnimation : Clip
  m_CurrentAnimation2 : Option Clip
  m_CurrentTime : ℚ
  m_CurrentTime2 : ℚ
  m_blendAmount : ℚ
  deriving DecidableEq, Repr

/-- Modelled from the spec: `PlayAnimation(clipA, clipB-or-none, timeA, timeB, blendWeight)`
of the absent `learnopengl/animator.h` "sets up a (possibly single-clip) blended
playback": it installs the clip pair, the two play-heads and the weight. -/
def Animator.PlayAnimation (_a : Animator) (pAnimation : Clip) (pAnimation2 : Option Clip)
    (time1 time2 blend : ℚ) : Animator :=
  { m_CurrentAnimation := pAnimation
    m_CurrentAnimation2 := pAnimation2
    m_CurrentTime := time1
    m_CurrentTime2 := time2
    m_blendAmount := blend }

/-- The global `const float blendRate = 0.00001f;`. -/
def blendRate : ℚ := 1 / 100000

/-- The mutable program state the blend switch touches: the globals `animBlendState`,
`blendAmount`, `activeAnimation`, the locals `movementState` and `animator` of `main`,
and the sequence of `PlayAnimation` calls issued so far (oldest first). -/
structure Globals where
  animBlendState : AnimBlendState
  blendAmount : ℚ
  movementState : MovementState
  activeAnimation : Option Clip
  animator : Animator
  played : List PlayCall
  deriving DecidableEq, Repr

/-- One statement `animator.PlayAnimation(a, b, t1, t2, w);` of `main`. -/
def callPlay (g : Globals) (a : Clip) (b : Option Clip) (t1 t2 w : ℚ) : Globals :=
  { g with
    animator := g.animator.PlayAnimation a b t1 t2 w
    played := g.played ++ [PlayCall.mk a b t1 t2 w] }

/-- The `switch (animBlendState)` statement of the render loop, lines 200-346. -/
def blendSwitch (forwardPressed runPressed : Bool) (g : Globals) : Globals :=
  match g.animBlendState with
  | .IDLE =>
    let g := { g with movementState := .IDLE, activeAnimation := some .idleAnimation }
    let g := callPlay g .idleAnimation none g.animator.m_CurrentTime 0 0
    if forwardPressed then
      let g := { g with blendAmount := 0 }
      let g := callPlay g .idleAnimation (some .walkAnimation) g.animator.m_CurrentTime 0
        g.blendAmount
      { g with animBlendState := .IDLE_TO_WALK, activeAnimation := some .walkAnimation }
    else g
  | .IDLE_TO_WALK =>
    let g := { g with movementState := .WALK, activeAnimation := some .walkAnimation }
    let g := { g with blendAmount := g.blendAmount + blendRate }
    let g := { g with blendAmount := min g.blendAmount 1 }
    let g := callPlay g .idleAnimation (some .walkAnimation) g.animator.m_CurrentTime
      g.animator.m_CurrentTime2 g.blendAmount
    if g.blendAmount ≥ 1 then
      let g := { g with blendAmount := 0 }
      let startTime := g.animator.m_CurrentTime2
      let g := callPlay g .walkAnimation none startTime 0 0
      { g with animBlendState := .WALK }
    else g
  | .WALK =>
    let g := { g with movementState := .WALK, activeAnimation := some .walkAnimation }
    let g := callPlay g .walkAnimation none g.animator.m_CurrentTime
      g.animator.m_CurrentTime2 0
    if !forwardPressed then
      let g := { g with blendAmount := 0 }
      let g := callPlay g .walkAnimation (some .idleAnimation) g.animator.m_CurrentTime
        g.animator.m_CurrentTime2 g.blendAmount
      { g with
        animBlendState := .WALK_TO_IDLE
        activeAnimation := some .idleAnimation
        movementState := .IDLE }
    else if runPressed then
      let g := { g with blendAmount := 0 }
      let g := callPlay g .walkAnimation (some .runAnimation) g.animator.m_CurrentTime 0
        g.blendAmount
      { g with
        animBlendState := .WALK_TO_RUN
        activeAnimation := some .runAnimation
        movementState := .RUN }
    else g
  | .WALK_TO_IDLE =>
    let g := { g with movementState := .IDLE, activeAnimation := some .idleAnimation }
    let g := { g with blendAmount := g.blendAmount + blendRate }
    let g := { g with blendAmount := min g.blendAmount 1 }
    let g := callPlay g .walkAnimation (some .idleAnimation) g.animator.m_CurrentTime
      g.animator.m_CurrentTime2 g.blendAmount
    if forwardPressed then
      let g := { g with blendAmount := 0 }
      let g := callPlay g .idleAnimation (some .walkAnimation) g.animator.m_CurrentTime
        g.animator.m_CurrentTime2 g.blendAmount
      { g with
        animBlendState := .IDLE_TO_WALK
        activeAnimation := some .walkAnimation
        movementState := .WALK }
    else if g.blendAmount ≥ 1 then
      let g := { g with blendAmount := 0 }
      let startTime := g.animator.m_CurrentTime2
      let g := callPlay g .idleAnimation none startTime 0 0
      { g with animBlendState := .IDLE }
    else g
  | .WALK_TO_RUN =>
    let g := { g with movementState := .RUN, activeAnimation := some .runAnimation }
    let g := { g with blendAmount := g.blendAmount + blendRate }
    let g := { g with blendAmount := min g.blendAmount 1 }
    let g := callPlay g .walkAnimation (some .runAnimation) g.animator.m_CurrentTime
      g.animator.m_CurrentTime2 g.blendAmount
    if !forwardPressed || !runPressed then
      let g := { g with blendAmount := 0 }
      let g := callPlay g .runAnimation (some .walkAnimation) g.animator.m_CurrentTime
        g.animator.m_CurrentTime2 g.blendAmount
      { g with
        animBlendState := .RUN_TO_WALK
        activeAnimation := some .walkAnimation
        movementState := .WALK }
    else if g.blendAmount ≥ 1 then
      let g := { g with blendAmount := 0 }
      let startTime := g.animator.m_CurrentTime2
      let g := callPlay g .runAnimation none startTime 0 0
      { g with animBlendState := .RUN }
    else g
  | .RUN =>
    let g := { g with movementState := .RUN, activeAnimation := some .runAnimation }
    let g := callPlay g .runAnimation none g.animator.m_CurrentTime
      g.animator.m_CurrentTime2 0
    if !forwardPressed || !runPressed then
      let g := { g with blendAmount := 0 }
      let g := callPlay g .runAnimation (some .walkAnimation) g.animator.m_CurrentTime
        g.animator.m_CurrentTime2 g.blendAmount
      { g with
        animBlendState := .RUN_TO_WALK
        activeAnimation := some .walkAnimation
        movementState := if forwardPressed then .WALK else .IDLE }
    else g
  | .RUN_TO_WALK =>
    let g := { g with
      movementState := if forwardPressed then .WALK else .IDLE
      activeAnimation := if forwardPressed then some .walkAnimation else some .idleAnimation }
    let g := { g with blendAmount := g.blendAmount + blendRate }
    let g := { g with blendAmount := min g.blendAmount 1 }
    let g := callPlay g .runAnimation (some .walkAnimation) g.animator.m_CurrentTime
      g.animator.m_CurrentTime2 g.blendAmount
    if forwardPressed && runPressed then
      let g := { g with blendAmount := 0 }
      let g := callPlay g .walkAnimation (some .runAnimation) g.animator.m_CurrentTime
        g.animator.m_CurrentTime2 g.blendAmount
      { g with
        animBlendState := .WALK_TO_RUN
        activeAnimation := some .runAnimation
        movementState := .RUN }
    else if g.blendAmount ≥ 1 then
      let g := { g with blendAmount := 0 }
      let startTime := g.animator.m_CurrentTime2
      if forwardPressed then
        let g := callPlay g .walkAnimation none startTime 0 0
        { g with
          animBlendState := .WALK
          activeAnimation := some .walkAnimation
          movementState := .WALK }
      else
        let g := callPlay g .idleAnimation none 0 0 0
        { g with
          animBlendState := .IDLE
          activeAnimation := some .idleAnimation
          movementState := .IDLE }
    else g

/-- The state on entry to the render loop: the initialisers of the globals
(`animBlendState = IDLE`, `blendAmount = 0.1f`), `movementState = IDLE`,
`activeAnimation = &idleAnimation`, and `Animator animator(&idleAnimation)` with both
play-heads at 0. -/
def initialGlobals : Globals :=
  { animBlendState := .IDLE
    blendAmount := 1 / 10
    movementState := .IDLE
    activeAnimation := some .idleAnimation
    animator :=
      { m_CurrentAnimation := .idleAnimation
        m_CurrentAnimation2 := none
        m_CurrentTime := 0
        m_CurrentTime2 := 0
        m_blendAmount := 0 }
    played := [] }

/-- The blend switch run over successive frames, one `(forwardPressed, runPressed)`
pair per frame, first frame first. -/
def runFrames (g : Globals) : List (Bool × Bool) → Globals
  | [] => g
  | (forwardPressed, runPressed) :: rest =>
    runFrames (blendSwitch forwardPressed runPressed g) rest

/-- The initial globals moved to a given blend state and weight; used to instantiate
the row theorems at concrete states. -/
def globalsAt (st : AnimBlendState) (b : ℚ) : Globals :=
  { initialGlobals with animBlendState := st, blendAmount := b }

/-! ## Root-motion extraction

The second half of the loop body (lines 348-397) and the helpers
`SampleRootTranslation`, `EstimateRootLoopDisplacement` and `RotateDeltaByYaw`
(lines 571-618).

Further conventions
* `glm::vec3` is `Vec3`, three exact rationals.
* `glm::length(v) < c` and `glm::length(v) > c` for a constant `c ≥ 0` are compared
  through the squares, `v.x² + v.y² + v.z² < c²`, which is the same comparison in
  exact arithmetic and needs no square root.
* `cos` and `sin` are needed at the yaw 0 only (`characterYaw = 0.0f`), where they are
  1 and 0; `RotateDeltaByYaw` receives them as arguments.
-/

/-- The type `glm::vec3`. -/
@[ext]
structure Vec3 where
  x : ℚ
  y : ℚ
  z : ℚ
  deriving DecidableEq, Repr

instance : Zero Vec3 := ⟨⟨0, 0, 0⟩⟩

instance : Add Vec3 := ⟨fun a b => ⟨a.x + b.x, a.y + b.y, a.z + b.z⟩⟩

instance : Sub Vec3 := ⟨fun a b => ⟨a.x - b.x, a.y - b.y, a.z - b.z⟩⟩

/-- The product `vec3 * float`. -/
instance : HMul Vec3 ℚ Vec3 := ⟨fun a k => ⟨a.x * k, a.y * k, a.z * k⟩⟩

/-- The comparison `glm::length(v) < c` for `c ≥ 0`, through the squares. -/
def Vec3.lengthLt (v : Vec3) (c : ℚ) : Prop :=
  v.x * v.x + v.y * v.y + v.z * v.z < c * c

instance (v : Vec3) (c : ℚ) : Decidable (v.lengthLt c) :=
  inferInstanceAs (Decidable (v.x * v.x + v.y * v.y + v.z * v.z < c * c))

/-- The comparison `glm::length(v) > c` for `c ≥ 0`, through the squares. -/
def Vec3.lengthGt (v : Vec3) (c : ℚ) : Prop :=
  c * c < v.x * v.x + v.y * v.y + v.z * v.z

instance (v : Vec3) (c : ℚ) : Decidable (v.lengthGt c) :=
  inferInstanceAs (Decidable (c * c < v.x * v.x + v.y * v.y + v.z * v.z))

/-- Modelled from the spec: a `Bone` of the absent `learnopengl/bone.h`, reduced to its
"time-indexed sequence of translation samples; queried by interpolation at an arbitrary
time": the translation `InterpolatePosition(time, out)` writes for each time. -/
structure Bone where
  InterpolatePosition : ℚ → Vec3

/-- Modelled from the spec: an `Animation` of the absent `learnopengl/animation.h`: a
clip "has a duration" (`GetDuration()`) and a per-bone-name track lookup
(`FindBone(name)`, null when the bone is not found). -/
structure Animation where
  GetDuration : ℚ
  FindBone : String → Option Bone

/-- The global `const std::string ROOT_BONE_NAME`. -/
def ROOT_BONE_NAME : String := "mixamorig:Hips"

/-- Rounding toward zero, the integer quotient used by the C library `fmod`. -/
def truncToward0 (q : ℚ) : ℤ :=
  if 0 ≤ q then ⌊q⌋ else -⌊-q⌋

/-- The C library `fmod(x, y)` for `y ≠ 0`: `x - n * y` with `n` the quotient `x / y`
rounded toward zero (the result has the sign of `x`). The source calls it with
`y = duration > 0` only. -/
def fmod (x y : ℚ) : ℚ :=
  x - (truncToward0 (x / y) : ℚ) * y

/-- The two statements of `SampleRootTranslation` that compute `wrappedTime`, in exact
arithmetic: `fmod(animationTime, duration)`, plus `duration` when that is negative. The
evaluation with the rounded addition is `wrapTimeFloat32`; the two agree whenever `fmod`
is not negative. -/
def wrapTime (animationTime duration : ℚ) : ℚ :=
  let wrappedTime := fmod animationTime duration
  if wrappedTime < 0 then wrappedTime + duration else wrappedTime

/-- The function `SampleRootTranslation`, lines 571-591; a null `animation` is `none`. -/
def SampleRootTranslation (animation : Option Animation) (rootBoneName : String)
    (animationTime : ℚ) : Vec3 :=
  let translation : Vec3 := 0
  match animation with
  | none => translation
  | some anim =>
    match anim.FindBone rootBoneName with
    | none => translation
    | some rootBone =>
      let duration := anim.GetDuration
      if duration ≤ 0 then translation
      else
        let wrappedTime := wrapTime animationTime duration
        rootBone.InterpolatePosition wrappedTime

/-- The function `EstimateRootLoopDisplacement`, lines 593-605. -/
def EstimateRootLoopDisplacement (animation : Option Animation) (rootBoneName : String) :
    Vec3 :=
  match animation with
  | none => 0
  | some anim =>
    let duration := anim.GetDuration
    if duration ≤ 0 then 0
    else
      let start := SampleRootTranslation (some anim) rootBoneName 0
      let endSample := SampleRootTranslation (some anim) rootBoneName (duration - 1 / 10000)
      endSample - start

/-- The function `RotateDeltaByYaw`, lines 607-618, with the values `cos(yawRad)` and
`sin(yawRad)` passed in. -/
def RotateDeltaByYaw (delta : Vec3) (cosYaw sinYaw : ℚ) : Vec3 :=
  { x := delta.x * cosYaw - delta.z * sinYaw
    z := delta.x * sinYaw + delta.z * cosYaw
    y := delta.y }

/-- The global `const float walkSpeed = 1.25f;`. -/
def walkSpeed : ℚ := 5 / 4

/-- The global `const float runSpeed = 4.0f;`. -/
def runSpeed : ℚ := 4

/-- The local `facingDir` of the loop body, fixed to `(0, 0, -1)`. -/
def facingDir : Vec3 := ⟨0, 0, -1⟩

/-- The collaborators of the loop body that are not part of the sources, taken as
parameters: the data of the three loaded clips, `Animator::UpdateAnimation(dt)`, and
`glm::degrees(atan2(a, b))`. -/
structure World where
  animation : Clip → Animation
  UpdateAnimation : Animator → ℚ → Animator
  atan2Degrees : ℚ → ℚ → ℚ

/-- The state of the render loop: the blend globals, the timing globals, the
root-motion tracking globals, the map `rootLoopDisplacements` (its `find` result per
clip) and the ground transform. -/
structure Scene where
  globals : Globals
  deltaTime : ℚ
  lastFrame : ℚ
  rootLoopDisplacements : Clip → Option Vec3
  previousRootSample : Vec3
  previousRootTime : ℚ
  rootMotionInitialized : Bool
  groundPosition : Vec3
  groundYaw : ℚ

/-- The map `rootLoopDisplacements` as filled in `main` before the loop, lines 142-144:
the idle clip gets `glm::vec3(0.0f)`, the walk and run clips get
`EstimateRootLoopDisplacement`. -/
def loadRootLoopDisplacements (w : World) : Clip → Option Vec3
  | .idleAnimation => some 0
  | .walkAnimation =>
    some (EstimateRootLoopDisplacement (some (w.animation .walkAnimation)) ROOT_BONE_NAME)
  | .runAnimation =>
    some (EstimateRootLoopDisplacement (some (w.animation .runAnimation)) ROOT_BONE_NAME)

/-- The scene on entry to the render loop. -/
def initialScene (w : World) : Scene :=
  { globals := initialGlobals
    deltaTime := 0
    lastFrame := 0
    rootLoopDisplacements := loadRootLoopDisplacements w
    previousRootSample := 0
    previousRootTime := 0
    rootMotionInitialized := false
    groundPosition := 0
    groundYaw := 0 }

/-- The local `motionAnimation`, line 350: `activeAnimation` when it is not null, else
`animator.GetCurrentAnimation()`. The animator always holds a clip, so the result is
never null and the test of line 351 always succeeds. -/
def motionAnimation (s : Scene) : Clip :=
  match s.globals.activeAnimation with
  | some a => a
  | none => s.globals.animator.m_CurrentAnimation

/-- The local `loopDisplacement` of lines 368-371: `glm::vec3(0.0f)`, replaced by the
entry of `rootLoopDisplacements` for the clip when `find` has one. -/
def cachedLoopDisplacement (s : Scene) (motion : Clip) : Vec3 :=
  match s.rootLoopDisplacements motion with
  | some d => d
  | none => 0

/-- The value of the local `localDelta` after lines 364-373, in a frame whose tracking
is initialised: the plain difference, replaced across a loop wrap. -/
def localDeltaOf (s : Scene) (motion : Clip) (animationTime : ℚ) (rootSample : Vec3) : Vec3 :=
  let localDelta := rootSample - s.previousRootSample
  if animationTime < s.previousRootTime then
    let loopDisplacement := cachedLoopDisplacement s motion
    (loopDisplacement - s.previousRootSample) + rootSample
  else localDelta

/-- The value of the local `worldDelta` after lines 381-391 (reached when
`movementState != IDLE`): the synthetic fallback below the threshold, else the
flattened delta rotated by `characterYaw = 0`. -/
def worldDeltaOf (movementState : MovementState) (localDelta : Vec3) (deltaTime : ℚ) : Vec3 :=
  if localDelta.lengthLt (1 / 10000) then
    let fallbackSpeed := if movementState = .RUN then runSpeed else walkSpeed
    facingDir * fallbackSpeed * deltaTime
  else
    let localDelta := { localDelta with y := 0 }
    RotateDeltaByYaw localDelta 1 0

/-- The sample `rootSample` of the frame, line 354; `GetCurrentTime()` is the first
play-head of the animator. -/
def frameRootSample (w : World) (s : Scene) : Vec3 :=
  SampleRootTranslation (some (w.animation (motionAnimation s))) ROOT_BONE_NAME
    s.globals.animator.m_CurrentTime

/-- The local delta of the frame that `rootMotionBlock` computes from scene `s`. -/
def frameLocalDelta (w : World) (s : Scene) : Vec3 :=
  localDeltaOf s (motionAnimation s) s.globals.animator.m_CurrentTime (frameRootSample w s)

/-- The root-motion part of the loop body, lines 350-397. -/
def rootMotionBlock (w : World) (s : Scene) : Scene :=
  let motion := motionAnimation s
  let animationTime := s.globals.animator.m_CurrentTime
  let rootSample := SampleRootTranslation (some (w.animation motion)) ROOT_BONE_NAME animationTime
  if !s.rootMotionInitialized then
    { s with
      previousRootSample := rootSample
      previousRootTime := animationTime
      rootMotionInitialized := true }
  else
    let localDelta := localDeltaOf s motion animationTime rootSample
    let s := { s with previousRootSample := rootSample, previousRootTime := animationTime }
    if s.globals.movementState ≠ .IDLE then
      let worldDelta := worldDeltaOf s.globals.movementState localDelta s.deltaTime
      let s := { s with groundPosition := s.groundPosition - worldDelta }
      if worldDelta.lengthGt (1 / 10000) then
        { s with groundYaw := w.atan2Degrees worldDelta.x (-worldDelta.z) }
      else s
    else s

/-- One iteration of the render loop up to the camera update, lines 186-397:
`currentFrame` is the value of `glfwGetTime()`, the two flags are the key polls. -/
def renderFrame (w : World) (currentFrame : ℚ) (forwardPressed runPressed : Bool)
    (s : Scene) : Scene :=
  let s := { s with deltaTime := currentFrame - s.lastFrame }
  let s := { s with lastFrame := currentFrame }
  let s := { s with globals := blendSwitch forwardPressed runPressed s.globals }
  let s := { s with
    globals := { s.globals with animator := w.UpdateAnimation s.globals.animator s.deltaTime } }
  rootMotionBlock w s

/-- The scene at the point of line 350 in a frame where `clip` is the active clip and
the play-head of the animator reads `t`. -/
def Scene.withPlayhead (s : Scene) (clip : Clip) (t : ℚ) : Scene :=
  { s with
    globals := { s.globals with
      activeAnimation := some clip
      animator := { s.globals.animator with m_CurrentTime := t } } }

/-- The local deltas of successive frames of `rootMotionBlock` on one clip, one frame
per play-head time, starting from scene `s`. -/
def extractDeltas (w : World) (clip : Clip) : Scene → List ℚ → List Vec3
  | _, [] => []
  | s, t :: ts =>
    frameLocalDelta w (s.withPlayhead clip t) ::
      extractDeltas w clip (rootMotionBlock w (s.withPlayhead clip t)) ts

/-- The sum of a list of vectors. -/
def Vec3.sum : List Vec3 → Vec3
  | [] => 0
  | v :: vs => v + Vec3.sum vs

/-- The number of frames whose time is smaller than the time of the frame before,
along the times `prev, t₁, t₂, ...`. -/
def countWraps : ℚ → List ℚ → ℕ
  | _, [] => 0
  | prev, t :: ts => (if t < prev then 1 else 0) + countWraps t ts

/-- The last time of `prev, t₁, t₂, ...`. -/
def lastTime : ℚ → List ℚ → ℚ
  | prev, [] => prev
  | _, t :: ts => lastTime t ts

/-! ### Concrete clips and worlds used to instantiate the theorems -/

/-- A bone whose translation at time `t` is `v * t`. -/
def linearBone (v : Vec3) : Bone :=
  { InterpolatePosition := fun t => v * t }

/-- A clip of the given duration whose only bone is the root bone `b`. -/
def clipWithRoot (duration : ℚ) (b : Bone) : Animation :=
  { GetDuration := duration
    FindBone := fun name => if name = ROOT_BONE_NAME then some b else none }

/-- A clip of the given duration without any bone. -/
def clipWithoutBones (duration : ℚ) : Animation :=
  { GetDuration := duration
    FindBone := fun _ => none }

/-- A world whose three clips are all `a`; `UpdateAnimation` advances the first
play-head by `dt` and the yaw computation returns 0. -/
def worldOf (a : Animation) : World :=
  { animation := fun _ => a
    UpdateAnimation := fun an dt => { an with m_CurrentTime := an.m_CurrentTime + dt }
    atan2Degrees := fun _ _ => 0 }

/-- A scene inside the loop with tracking initialised: the given movement state, the
walk clip active at play-head `t`, frame time `dt`, and the given previous sample and
time. -/
def trackedScene (w : World) (ms : MovementState) (t dt : ℚ) (prevSample : Vec3)
    (prevTime : ℚ) : Scene :=
  { initialScene w with
    globals := { initialGlobals with
      movementState := ms
      activeAnimation := some .walkAnimation
      animator := { initialGlobals.animator with m_CurrentTime := t } }
    deltaTime := dt
    previousRootSample := prevSample
    previousRootTime := prevTime
    rootMotionInitialized := true }

/-! ### Reference data for the statements about the blend machine -/

/-- The initial globals moved to a given blend state and weight, with the two
play-heads of the animator at `t1` and `t2`. -/
def globalsAtPlayheads (st : AnimBlendState) (b t1 t2 : ℚ) : Globals :=
  { initialGlobals with
    animBlendState := st
    blendAmount := b
    animator := { initialGlobals.animator with m_CurrentTime := t1, m_CurrentTime2 := t2 } }


/-- The render loop run over successive frames, one triple
`(currentFrame, forwardPressed, runPressed)` per frame, first frame first. -/
def runRenderFrames (w : World) (s : Scene) : List (ℚ × Bool × Bool) → Scene
  | [] => s
  | (currentFrame, forwardPressed, runPressed) :: rest =>
    runRenderFrames w (renderFrame w currentFrame forwardPressed runPressed s) rest

/-- The clip pair the transition table of the specification lets each state drive
(column "Drives"): one clip in the steady states, outgoing and incoming clip in the
blend states. -/
def specClipPair : AnimBlendState → Clip × Option Clip
  | .IDLE => (.idleAnimation, none)
  | .IDLE_TO_WALK => (.idleAnimation, some .walkAnimation)
  | .WALK => (.walkAnimation, none)
  | .WALK_TO_IDLE => (.walkAnimation, some .idleAnimation)
  | .WALK_TO_RUN => (.walkAnimation, some .runAnimation)
  | .RUN => (.runAnimation, none)
  | .RUN_TO_WALK => (.runAnimation, some .walkAnimation)

/-- The four blend states of the specification, as opposed to the three steady states. -/
def specIsBlendState : AnimBlendState → Bool
  | .IDLE_TO_WALK => true
  | .WALK_TO_IDLE => true
  | .WALK_TO_RUN => true
  | .RUN_TO_WALK => true
  | _ => false

/-! ### The time wrapping evaluated in binary32 -/

end SkeletalAnimation

/-!
# Water surface and boat of `camera_class.cpp`

The wave animation and the boat of `src/A2-Kinetic-Sculpture/camera_class.cpp`.
`float` values are exact rationals; the C library `sin` and `cos` are parameters.
-/

namespace KineticSculpture

/-- The array `boxVertices`, lines 186-209: five floats per vertex (position and
texture coordinates). -/
def boxVertices : List ℚ :=
  [ 0, -1 / 2, 1, 1 / 2, 0,
    0, -1 / 2, 1, 0, 1 / 5,
    0, -1 / 2, 1, 1, 1 / 5,
    0, -1 / 2, -1, 0, 4 / 5,
    0, -1 / 2, -1, 1, 4 / 5,
    0, -1 / 2, -1, 1 / 2, 1,
    0, 0, 3 / 2, 1 / 2, 0,
    -1 / 2, 0, 1 / 2, 0, 1 / 5,
    1 / 2, 0, 1 / 2, 1, 1 / 5,
    -1 / 2, 0, -1 / 2, 0, 4 / 5,
    1 / 2, 0, -1 / 2, 1, 4 / 5,
    0, 0, -3 / 2, 1 / 2, 1,
    0, 0, -3 / 5, 1 / 2, 1 / 2,
    0, 9 / 10, 1 / 10, 1 / 2, 1 / 10,
    0, 0, 3 / 5, 3 / 5, 1 / 4 ]

/-- The number of floats per vertex, the stride of `glVertexAttribPointer`. -/
def floatsPerVertex : ℕ := 5

/-- The array `boxIndices`, lines 212-243. -/
def boxIndices : List ℕ :=
  [ 0, 1, 2,
    1, 3, 2,
    2, 3, 4,
    3, 5, 4,
    0, 6, 1,
    1, 6, 7,
    1, 7, 3,
    3, 7, 9,
    3, 9, 5,
    5, 9, 11,
    0, 2, 6,
    2, 8, 6,
    2, 4, 8,
    4, 10, 8,
    4, 5, 10,
    5, 11, 10,
    6, 7, 8,
    7, 9, 8,
    8, 9, 10,
    9, 11, 10,
    12, 13, 14 ]

/-- The index count of the boat draw call, `glDrawElements(GL_TRIANGLES, 75, ...)`. -/
def boatDrawCount : ℕ := 75

/-- The positions of the index buffer the boat draw call reads: `0 .. count - 1`, the
offset argument of the call being 0. -/
def boatDrawReads : List ℕ := List.range boatDrawCount

/-- The height the wave animation, lines 337-354, writes for a grid vertex at `(x, z)`
at time `time`. -/
def waveHeight (sin cos : ℚ → ℚ) (x z time : ℚ) : ℚ :=
  let wave1 := 1 / 10 * sin (x * 2 + time * (3 / 2)) * cos (z * (3 / 2) + time * (6 / 5))
  let wave2 := 1 / 5 * cos (x * 3 + time * 2) * sin (z * 2 + time * (9 / 5))
  let wave3 := 3 / 20 * sin (x * 4 + time * (5 / 2)) * cos (z * 3 + time * (11 / 5))
  let wave4 := 1 / 10 * sin (x * 5 + time * 3) * sin (z * 4 + time * (14 / 5))
  let y := wave1 + wave2 + wave3 + wave4
  y

/-- The local `floatHeight` of the boat, lines 399-406. -/
def floatHeight (sin cos : ℚ → ℚ) (time : ℚ) : ℚ :=
  let x : ℚ := 0
  let z : ℚ := 0
  let wave1 := 1 / 10 * sin (x * 2 + time * (3 / 2)) * cos (z * (3 / 2) + time * (6 / 5))
  let wave2 := 1 / 5 * cos (x * 3 + time * 2) * sin (z * 2 + time * (9 / 5))
  let wave3 := 3 / 20 * sin (x * 4 + time * (5 / 2)) * cos (z * 3 + time * (11 / 5))
  let wave4 := 1 / 10 * sin (x * 5 + time * 3) * sin (z * 4 + time * (14 / 5))
  175 / 1000 + (wave1 + wave2 + wave3 + wave4) * (7 / 10)

end KineticSculpture

/-!
# Flight state of `model_loading.cpp`

The plane state, `processInput` and the position update of
`src/assignment3-simple-game/model_loading.cpp`. `float` values are exact numbers of an
ordered field; the library functions `sin`, `cos`, `glm::radians` and `glm::normalize`
are parameters.
-/

namespace Airplane

/-- The type `glm::vec3` over the number type `K`. -/
structure GVec3 (K : Type) where
  x : K
  y : K
  z : K

/-- The library functions the position update calls, taken as parameters. -/
structure MathFns (K : Type) where
  sin : K → K
  cos : K → K
  radians : K → K
  normalize : GVec3 K → GVec3 K

/-- The plane globals `planePosition`, `planePitch`, `planeYaw`, `planeRoll`,
`planeSpeed` and the timing global `deltaTime`. -/
structure Plane (K : Type) where
  planePosition : GVec3 K
  planePitch : K
  planeYaw : K
  planeRoll : K
  planeSpeed : K
  deltaTime : K

/-- The keys `processInput` polls. -/
structure Keys where
  W : Bool
  S : Bool
  A : Bool
  D : Bool
  Z : Bool
  X : Bool

/-- The loop `while (planeYaw < 0.0f) planeYaw += 360.0f;`, in exact arithmetic, where
it always terminates. -/
def whileYawNegative (planeYaw : ℚ) : ℚ :=
  if planeYaw < 0 then whileYawNegative (planeYaw + 360) else planeYaw
termination_by (⌈-planeYaw / 360⌉).toNat
decreasing_by
  have hpos : 0 < -planeYaw / 360 := by linarith
  have hceil : 0 < ⌈-planeYaw / 360⌉ := Int.ceil_pos.mpr hpos
  have hstep : ⌈-(planeYaw + 360) / 360⌉ = ⌈-planeYaw / 360⌉ - 1 := by
    rw [show -(planeYaw + 360) / 360 = -planeYaw / 360 - 1 by ring]
    exact Int.ceil_sub_one _
  rw [hstep]
  omega

/-- The loop `while (planeYaw >= 360.0f) planeYaw -= 360.0f;`, in exact arithmetic,
where it always terminates; its body with the binary32 rounding is
`yawSubtractFloat32`. -/
def whileYawAtLeast360 (planeYaw : ℚ) : ℚ :=
  if 360 ≤ planeYaw then whileYawAtLeast360 (planeYaw - 360) else planeYaw
termination_by (⌊planeYaw / 360⌋).toNat
decreasing_by
  have hone : 1 ≤ planeYaw / 360 := by linarith
  have hfloor : 1 ≤ ⌊planeYaw / 360⌋ := Int.le_floor.mpr (by exact_mod_cast hone)
  have hstep : ⌊(planeYaw - 360) / 360⌋ = ⌊planeYaw / 360⌋ - 1 := by
    rw [show (planeYaw - 360) / 360 = planeYaw / 360 - 1 by ring]
    exact Int.floor_sub_one _
  rw [hstep]
  omega

/-- The function `processInput`, lines 349-389, without the window-close request; the
four globals it assigns are threaded as local values. -/
def processInput (keys : Keys) (p : Plane ℚ) : Plane ℚ :=
  let rotationSpeed : ℚ := 10
  let acceleration : ℚ := 10
  let deltaTime := p.deltaTime
  let planePitch := p.planePitch
  let planeRoll := p.planeRoll
  let planeYaw := p.planeYaw
  let planeSpeed := p.planeSpeed
  let planePitch := if keys.W then planePitch + rotationSpeed * deltaTime else planePitch
  let planePitch := if keys.S then planePitch - rotationSpeed * deltaTime else planePitch
  let planeRoll := if keys.D then planeRoll + rotationSpeed * deltaTime else planeRoll
  let planeRoll := if keys.A then planeRoll - rotationSpeed * deltaTime else planeRoll
  let planePitch := if planePitch > 89 then 89 else planePitch
  let planePitch := if planePitch < -89 then -89 else planePitch
  let planeYaw := whileYawNegative planeYaw
  let planeYaw := whileYawAtLeast360 planeYaw
  let planeRoll := if planeRoll > 45 then 45 else planeRoll
  let planeRoll := if planeRoll < -45 then -45 else planeRoll
  let planeSpeed := if keys.Z then planeSpeed + acceleration * deltaTime else planeSpeed
  let planeSpeed := if keys.X then planeSpeed - acceleration * deltaTime else planeSpeed
  let planeSpeed := if planeSpeed < 1 then 1 else planeSpeed
  let planeSpeed := if planeSpeed > 50 then 50 else planeSpeed
  { p with
    planePitch := planePitch
    planeYaw := planeYaw
    planeRoll := planeRoll
    planeSpeed := planeSpeed }

/-- The position update of the render loop, lines 222-237: the forward direction from
yaw and pitch, normalised, times speed and frame time, added to the position. -/
def movePlane {K : Type} [Ring K] (m : MathFns K) (p : Plane K) : Plane K :=
  let yawRad := m.radians p.planeYaw
  let pitchRad := m.radians p.planePitch
  let forward : GVec3 K :=
    { x := m.sin yawRad * m.cos pitchRad
      y := -m.sin pitchRad
      z := m.cos yawRad * m.cos pitchRad }
  let forward := m.normalize forward
  { p with
    planePosition :=
      { x := p.planePosition.x + forward.x * p.planeSpeed * p.deltaTime
        y := p.planePosition.y + forward.y * p.planeSpeed * p.deltaTime
        z := p.planePosition.z + forward.z * p.planeSpeed * p.deltaTime } }

/-- The part of one iteration of the render loop that updates the plane, lines 204-237:
frame time, `processInput`, the turn from the roll, the yaw normalisation and the
position update. The second component is the new value of `lastFrame`. -/
def planeFrame (m : MathFns ℚ) (keys : Keys) (currentFrame lastFrame : ℚ) (p : Plane ℚ) :
    Plane ℚ × ℚ :=
  let p := { p with deltaTime := currentFrame - lastFrame }
  let lastFrame := currentFrame
  let p := processInput keys p
  let turnRate : ℚ := 1 / 2
  let p := { p with planeYaw := p.planeYaw - p.planeRoll * turnRate * p.deltaTime }
  let p := { p with planeYaw := whileYawNegative p.planeYaw }
  let p := { p with planeYaw := whileYawAtLeast360 p.planeYaw }
  (movePlane m p, lastFrame)

end Airplane

namespace Binary32

end Binary32

namespace SkeletalAnimation

/-! ## Auxiliary facts -/

theorem blendRate_nonneg : 0 ≤ blendRate := by
  norm_num [blendRate]

theorem blendRate_lt_one : blendRate < 1 := by
  norm_num [blendRate]

/-- One run of the switch keeps a weight that lies in `[0, 1]` inside `[0, 1]`. -/
theorem blendSwitch_blendAmount_mem (f r : Bool) (g : Globals)
    (h0 : 0 ≤ g.blendAmount) (h1 : g.blendAmount ≤ 1) :
    0 ≤ (blendSwitch f r g).blendAmount ∧ (blendSwitch f r g).blendAmount ≤ 1 := by
  have hr := blendRate_nonneg
  have hsum : 0 ≤ g.blendAmount + blendRate := add_nonneg h0 hr
  have hmin : 0 ≤ min (g.blendAmount + blendRate) 1 := le_min hsum zero_le_one
  have hmax : min (g.blendAmount + blendRate) 1 ≤ 1 := min_le_right _ _
  cases hs : g.animBlendState <;> cases f <;> cases r <;>
    simp [blendSwitch, hs, callPlay] <;> (try split_ifs) <;>
    first
      | exact ⟨h0, h1⟩
      | exact ⟨le_refl _, zero_le_one⟩
      | exact ⟨hmin, hmax⟩

/-- The weight stays in `[0, 1]` along every run that starts with it in `[0, 1]`. -/
theorem runFrames_blendAmount_mem (inputs : List (Bool × Bool)) :
    ∀ g : Globals, 0 ≤ g.blendAmount → g.blendAmount ≤ 1 →
      0 ≤ (runFrames g inputs).blendAmount ∧ (runFrames g inputs).blendAmount ≤ 1 := by
  induction inputs with
  | nil => intro g h0 h1; exact ⟨h0, h1⟩
  | cons p rest ih =>
    intro g h0 h1
    obtain ⟨f, r⟩ := p
    have hstep := blendSwitch_blendAmount_mem f r g h0 h1
    exact ih (blendSwitch f r g) hstep.1 hstep.2

/-! ### Vectors and time wrapping -/

theorem Vec3.zero_def : (0 : Vec3) = ⟨0, 0, 0⟩ := rfl

@[simp]
theorem Vec3.zero_x : (0 : Vec3).x = 0 := rfl

@[simp]
theorem Vec3.zero_y : (0 : Vec3).y = 0 := rfl

@[simp]
theorem Vec3.zero_z : (0 : Vec3).z = 0 := rfl

theorem Vec3.add_def (a b : Vec3) : a + b = ⟨a.x + b.x, a.y + b.y, a.z + b.z⟩ := rfl

theorem Vec3.sub_def (a b : Vec3) : a - b = ⟨a.x - b.x, a.y - b.y, a.z - b.z⟩ := rfl

theorem Vec3.mul_def (a : Vec3) (k : ℚ) : a * k = ⟨a.x * k, a.y * k, a.z * k⟩ := rfl

/-- A time that already lies in `[0, duration)` is not changed by the wrapping. -/
theorem wrapTime_of_mem (t d : ℚ) (h0 : 0 ≤ t) (h1 : t < d) : wrapTime t d = t := by
  have hd : 0 < d := lt_of_le_of_lt h0 h1
  have hq0 : 0 ≤ t / d := div_nonneg h0 (le_of_lt hd)
  have hq1 : t / d < 1 := (div_lt_one hd).mpr h1
  have hfloor : ⌊t / d⌋ = 0 := Int.floor_eq_zero_iff.mpr ⟨hq0, hq1⟩
  have hfm : fmod t d = t := by
    simp [fmod, truncToward0, hq0, hfloor]
  simp [wrapTime, hfm, not_lt.mpr h0]

/-- A clip without the named bone, or with a non-positive duration, samples to zero. -/
theorem SampleRootTranslation_degenerate (anim : Animation) (rootBoneName : String) (t : ℚ)
    (h : anim.FindBone rootBoneName = none ∨ anim.GetDuration ≤ 0) :
    SampleRootTranslation (some anim) rootBoneName t = 0 := by
  rcases h with hbone | hduration
  · simp [SampleRootTranslation, hbone]
  · simp only [SampleRootTranslation]
    split
    · rfl
    · simp [hduration]

/-- The loop displacement is the difference of the samples at `duration - 0.0001` and
at 0, for every clip. -/
theorem EstimateRootLoopDisplacement_eq (anim : Animation) (rootBoneName : String) :
    EstimateRootLoopDisplacement (some anim) rootBoneName =
      SampleRootTranslation (some anim) rootBoneName (anim.GetDuration - 1 / 10000) -
        SampleRootTranslation (some anim) rootBoneName 0 := by
  by_cases hduration : anim.GetDuration ≤ 0
  · rw [SampleRootTranslation_degenerate anim rootBoneName _ (Or.inr hduration),
      SampleRootTranslation_degenerate anim rootBoneName _ (Or.inr hduration)]
    simp [EstimateRootLoopDisplacement, hduration, Vec3.sub_def, Vec3.zero_def]
  · simp [EstimateRootLoopDisplacement, hduration]

/-- A clip without the named bone, or with a non-positive duration, has the zero loop
displacement. -/
theorem EstimateRootLoopDisplacement_degenerate (anim : Animation) (rootBoneName : String)
    (h : anim.FindBone rootBoneName = none ∨ anim.GetDuration ≤ 0) :
    EstimateRootLoopDisplacement (some anim) rootBoneName = 0 := by
  rw [EstimateRootLoopDisplacement_eq, SampleRootTranslation_degenerate anim rootBoneName _ h,
    SampleRootTranslation_degenerate anim rootBoneName _ h]
  simp [Vec3.sub_def, Vec3.zero_def]

/-- The sample of a frame of `trackedScene` on a one-bone clip, at a play-head inside
the clip. -/
theorem frameRootSample_trackedScene (d : ℚ) (b : Bone) (ms : MovementState) (t dt : ℚ)
    (prevSample : Vec3) (prevTime : ℚ) (h0 : 0 ≤ t) (h1 : t < d) :
    frameRootSample (worldOf (clipWithRoot d b))
        (trackedScene (worldOf (clipWithRoot d b)) ms t dt prevSample prevTime) =
      b.InterpolatePosition t := by
  have hd : ¬ d ≤ 0 := not_le.mpr (lt_of_le_of_lt h0 h1)
  simp [frameRootSample, motionAnimation, trackedScene, worldOf, SampleRootTranslation,
    clipWithRoot, initialGlobals, hd, wrapTime_of_mem t d h0 h1]

/-- The local delta of a frame of `trackedScene` on a one-bone clip without a wrap. -/
theorem frameLocalDelta_trackedScene (d : ℚ) (b : Bone) (ms : MovementState) (t dt : ℚ)
    (prevSample : Vec3) (prevTime : ℚ) (h0 : 0 ≤ t) (h1 : t < d) (hle : prevTime ≤ t) :
    frameLocalDelta (worldOf (clipWithRoot d b))
        (trackedScene (worldOf (clipWithRoot d b)) ms t dt prevSample prevTime) =
      b.InterpolatePosition t - prevSample := by
  have hs := frameRootSample_trackedScene d b ms t dt prevSample prevTime h0 h1
  unfold frameLocalDelta
  rw [hs]
  simp [localDeltaOf, trackedScene, initialGlobals, not_lt.mpr hle]

/-- Below the threshold the world delta is the synthetic fallback. -/
theorem worldDeltaOf_small (ms : MovementState) (localDelta : Vec3) (dt : ℚ)
    (h : localDelta.lengthLt (1 / 10000)) :
    worldDeltaOf ms localDelta dt =
      facingDir * (if ms = .RUN then runSpeed else walkSpeed) * dt := by
  simp only [worldDeltaOf, if_pos h]

/-- At or above the threshold the world delta is the local delta without its vertical
component: the rotation by the yaw 0 changes nothing. -/
theorem worldDeltaOf_large (ms : MovementState) (localDelta : Vec3) (dt : ℚ)
    (h : ¬ localDelta.lengthLt (1 / 10000)) :
    worldDeltaOf ms localDelta dt = ⟨localDelta.x, 0, localDelta.z⟩ := by
  simp only [worldDeltaOf, if_neg h, RotateDeltaByYaw]
  ext <;> simp

/-! ## The blend-weight invariants -/

/-- C1: starting from the initial blend state of the program (IDLE, weight 0.1) the
blend weight lies in `[0, 1]` after every frame of every input sequence; and one
frame keeps a weight of `[0, 1]` inside `[0, 1]` from each of the seven states. -/
theorem blendAmount_range_invariant :
    (∀ inputs : List (Bool × Bool),
      0 ≤ (runFrames initialGlobals inputs).blendAmount ∧
        (runFrames initialGlobals inputs).blendAmount ≤ 1) ∧
    (∀ (forwardPressed runPressed : Bool) (g : Globals),
      0 ≤ g.blendAmount → g.blendAmount ≤ 1 →
        0 ≤ (blendSwitch forwardPressed runPressed g).blendAmount ∧
          (blendSwitch forwardPressed runPressed g).blendAmount ≤ 1) := by
  refine ⟨fun inputs => ?_, fun f r g h0 h1 => blendSwitch_blendAmount_mem f r g h0 h1⟩
  apply runFrames_blendAmount_mem inputs initialGlobals <;> norm_num [initialGlobals]

/-- Witness of C1: a WALK_TO_RUN frame at weight 1, both keys held, and the run of
three frames from the initial state. -/
theorem blendAmount_range_invariant_witness :
    (0 ≤ (globalsAt .WALK_TO_RUN 1).blendAmount ∧ (globalsAt .WALK_TO_RUN 1).blendAmount ≤ 1) ∧
    (0 ≤ (blendSwitch true true (globalsAt .WALK_TO_RUN 1)).blendAmount ∧
      (blendSwitch true true (globalsAt .WALK_TO_RUN 1)).blendAmount ≤ 1) ∧
    (0 ≤ (runFrames initialGlobals [(true, false), (true, true), (false, false)]).blendAmount ∧
      (runFrames initialGlobals [(true, false), (true, true), (false, false)]).blendAmount ≤ 1) :=
  ⟨⟨by simp [globalsAt], by simp [globalsAt]⟩,
    blendAmount_range_invariant.2 true true (globalsAt .WALK_TO_RUN 1)
      (by simp [globalsAt]) (by simp [globalsAt]),
    blendAmount_range_invariant.1 [(true, false), (true, true), (false, false)]⟩

/-- C2: whenever one frame changes `animBlendState`, the weight is exactly 0 after
that frame, for every state, weight and input combination. -/
theorem blendAmount_zero_on_state_change (forwardPressed runPressed : Bool) (g : Globals)
    (hchange : (blendSwitch forwardPressed runPressed g).animBlendState ≠ g.animBlendState) :
    (blendSwitch forwardPressed runPressed g).blendAmount = 0 := by
  revert hchange
  cases hs : g.animBlendState <;> cases forwardPressed <;> cases runPressed <;>
    simp [blendSwitch, hs, callPlay] <;> (try split_ifs) <;> simp

/-- Witness of C2: the first frame with the forward key from the initial state. -/
theorem blendAmount_zero_on_state_change_witness :
    (blendSwitch true false initialGlobals).animBlendState ≠ initialGlobals.animBlendState ∧
      (blendSwitch true false initialGlobals).blendAmount = 0 :=
  ⟨by simp [blendSwitch, callPlay, initialGlobals],
    blendAmount_zero_on_state_change true false initialGlobals
      (by simp [blendSwitch, callPlay, initialGlobals])⟩

/-! ## Determinism of the next state -/

/-- C3, as stated, fails: two IDLE_TO_WALK frames with the same two flags end in
different states when the weights differ (weight 0 stays, weight 1 completes). -/
theorem next_state_not_from_flags_alone :
    (globalsAt .IDLE_TO_WALK 0).animBlendState = (globalsAt .IDLE_TO_WALK 1).animBlendState ∧
    (blendSwitch false false (globalsAt .IDLE_TO_WALK 0)).animBlendState = .IDLE_TO_WALK ∧
    (blendSwitch false false (globalsAt .IDLE_TO_WALK 1)).animBlendState = .WALK ∧
    (blendSwitch false false (globalsAt .IDLE_TO_WALK 0)).animBlendState ≠
      (blendSwitch false false (globalsAt .IDLE_TO_WALK 1)).animBlendState := by
  have h0 : (blendSwitch false false (globalsAt .IDLE_TO_WALK 0)).animBlendState =
      .IDLE_TO_WALK := by
    norm_num [blendSwitch, callPlay, globalsAt, initialGlobals, blendRate]
  have h1 : (blendSwitch false false (globalsAt .IDLE_TO_WALK 1)).animBlendState = .WALK := by
    norm_num [blendSwitch, callPlay, globalsAt, initialGlobals, blendRate]
  refine ⟨rfl, h0, h1, ?_⟩
  rw [h0, h1]
  decide

/-- C3, amended: the next state is a function of the current state, the two flags and
whether the incremented weight reaches 1. Two frames that start in the same state with
the same flags end in the same state as soon as their weights agree on
`1 ≤ blendAmount + blendRate`; from the steady states IDLE, WALK and RUN they do so
whatever the weights are. -/
theorem next_state_deterministic (forwardPressed runPressed : Bool) (g₁ g₂ : Globals)
    (hstate : g₁.animBlendState = g₂.animBlendState)
    (hweight : g₁.animBlendState = .IDLE ∨ g₁.animBlendState = .WALK ∨
      g₁.animBlendState = .RUN ∨
      (1 ≤ g₁.blendAmount + blendRate ↔ 1 ≤ g₂.blendAmount + blendRate)) :
    (blendSwitch forwardPressed runPressed g₁).animBlendState =
      (blendSwitch forwardPressed runPressed g₂).animBlendState := by
  revert hweight
  cases hs : g₁.animBlendState <;> rw [hs] at hstate <;>
    cases forwardPressed <;> cases runPressed <;>
    simp [blendSwitch, hs, ← hstate, callPlay] <;>
    intro hw <;> simp [hw] <;> split_ifs <;> rfl

/-- Witness of C3 amended: two IDLE_TO_WALK frames at weights 0 and 1/2. -/
theorem next_state_deterministic_witness :
    (globalsAt .IDLE_TO_WALK 0).animBlendState = (globalsAt .IDLE_TO_WALK (1 / 2)).animBlendState ∧
    (1 ≤ (globalsAt .IDLE_TO_WALK 0).blendAmount + blendRate ↔
      1 ≤ (globalsAt .IDLE_TO_WALK (1 / 2)).blendAmount + blendRate) ∧
    (blendSwitch true false (globalsAt .IDLE_TO_WALK 0)).animBlendState =
      (blendSwitch true false (globalsAt .IDLE_TO_WALK (1 / 2))).animBlendState :=
  ⟨rfl, by norm_num [globalsAt, blendRate],
    next_state_deterministic true false (globalsAt .IDLE_TO_WALK 0)
      (globalsAt .IDLE_TO_WALK (1 / 2)) rfl
      (Or.inr (Or.inr (Or.inr (by norm_num [globalsAt, blendRate]))))⟩

/-! ## The rows of the transition table -/

/-- C4 (WALK row): from WALK, a frame without the forward key goes to WALK_TO_IDLE
whatever the run key is; a frame with both keys goes to WALK_TO_RUN; a frame with the
forward key only stays in WALK and leaves the weight unchanged. -/
theorem WALK_row (g : Globals) (hstate : g.animBlendState = .WALK) :
    (∀ runPressed : Bool, (blendSwitch false runPressed g).animBlendState = .WALK_TO_IDLE) ∧
    (blendSwitch true true g).animBlendState = .WALK_TO_RUN ∧
    (blendSwitch true false g).animBlendState = .WALK ∧
    (blendSwitch true false g).blendAmount = g.blendAmount := by
  refine ⟨fun runPressed => ?_, ?_, ?_, ?_⟩ <;> simp [blendSwitch, hstate, callPlay]

/-- Witness of C4: the WALK state at weight 1/2. -/
theorem WALK_row_witness :
    (globalsAt .WALK (1 / 2)).animBlendState = .WALK ∧
    ((∀ runPressed : Bool,
        (blendSwitch false runPressed (globalsAt .WALK (1 / 2))).animBlendState = .WALK_TO_IDLE) ∧
      (blendSwitch true true (globalsAt .WALK (1 / 2))).animBlendState = .WALK_TO_RUN ∧
      (blendSwitch true false (globalsAt .WALK (1 / 2))).animBlendState = .WALK ∧
      (blendSwitch true false (globalsAt .WALK (1 / 2))).blendAmount =
        (globalsAt .WALK (1 / 2)).blendAmount) :=
  ⟨rfl, WALK_row (globalsAt .WALK (1 / 2)) rfl⟩

/-- C5 (WALK_TO_IDLE row): from WALK_TO_IDLE, a frame with the forward key goes to
IDLE_TO_WALK with weight 0, also when the incremented weight has reached 1; a frame
without it goes to IDLE exactly when `min (blendAmount + blendRate) 1 ≥ 1` and
otherwise stays in WALK_TO_IDLE with the weight increased by `blendRate`. -/
theorem WALK_TO_IDLE_row (g : Globals) (hstate : g.animBlendState = .WALK_TO_IDLE)
    (runPressed : Bool) :
    ((blendSwitch true runPressed g).animBlendState = .IDLE_TO_WALK ∧
      (blendSwitch true runPressed g).blendAmount = 0) ∧
    ((blendSwitch false runPressed g).animBlendState = .IDLE ↔
      min (g.blendAmount + blendRate) 1 ≥ 1) ∧
    (¬ min (g.blendAmount + blendRate) 1 ≥ 1 →
      (blendSwitch false runPressed g).animBlendState = .WALK_TO_IDLE ∧
        (blendSwitch false runPressed g).blendAmount = g.blendAmount + blendRate) := by
  by_cases hfull : 1 ≤ g.blendAmount + blendRate
  · simp [blendSwitch, hstate, callPlay, hfull]
  · have hlt : g.blendAmount + blendRate ≤ 1 := le_of_lt (not_le.mp hfull)
    simp [blendSwitch, hstate, callPlay, hfull, hlt]

/-- Witness of C5: WALK_TO_IDLE in the middle of the blend, at weight 1/2. -/
theorem WALK_TO_IDLE_row_witness :
    (globalsAt .WALK_TO_IDLE (1 / 2)).animBlendState = .WALK_TO_IDLE ∧
    (((blendSwitch true false (globalsAt .WALK_TO_IDLE (1 / 2))).animBlendState = .IDLE_TO_WALK ∧
        (blendSwitch true false (globalsAt .WALK_TO_IDLE (1 / 2))).blendAmount = 0) ∧
      ((blendSwitch false false (globalsAt .WALK_TO_IDLE (1 / 2))).animBlendState = .IDLE ↔
        min ((globalsAt .WALK_TO_IDLE (1 / 2)).blendAmount + blendRate) 1 ≥ 1) ∧
      (¬ min ((globalsAt .WALK_TO_IDLE (1 / 2)).blendAmount + blendRate) 1 ≥ 1 →
        (blendSwitch false false (globalsAt .WALK_TO_IDLE (1 / 2))).animBlendState = .WALK_TO_IDLE ∧
          (blendSwitch false false (globalsAt .WALK_TO_IDLE (1 / 2))).blendAmount =
            (globalsAt .WALK_TO_IDLE (1 / 2)).blendAmount + blendRate)) :=
  ⟨rfl, WALK_TO_IDLE_row (globalsAt .WALK_TO_IDLE (1 / 2)) rfl false⟩

/-- C6 (RUN_TO_WALK row): from RUN_TO_WALK, a frame with both keys goes to WALK_TO_RUN
with weight 0; otherwise, when the incremented weight has reached 1, the next state is
WALK if the forward key is held and IDLE if not; otherwise the state stays RUN_TO_WALK
with the weight increased by `blendRate`. -/
theorem RUN_TO_WALK_row (g : Globals) (hstate : g.animBlendState = .RUN_TO_WALK) :
    ((blendSwitch true true g).animBlendState = .WALK_TO_RUN ∧
      (blendSwitch true true g).blendAmount = 0) ∧
    (∀ forwardPressed runPressed : Bool, ¬ (forwardPressed = true ∧ runPressed = true) →
      (min (g.blendAmount + blendRate) 1 ≥ 1 →
        (blendSwitch forwardPressed runPressed g).animBlendState =
          (if forwardPressed then .WALK else .IDLE)) ∧
      (¬ min (g.blendAmount + blendRate) 1 ≥ 1 →
        (blendSwitch forwardPressed runPressed g).animBlendState = .RUN_TO_WALK ∧
          (blendSwitch forwardPressed runPressed g).blendAmount =
            g.blendAmount + blendRate)) := by
  refine ⟨by simp [blendSwitch, hstate, callPlay], ?_⟩
  intro forwardPressed runPressed hkeys
  by_cases hfull : 1 ≤ g.blendAmount + blendRate
  · cases forwardPressed <;> cases runPressed <;>
      simp [blendSwitch, hstate, callPlay, hfull] at hkeys ⊢
  · have hlt : g.blendAmount + blendRate ≤ 1 := le_of_lt (not_le.mp hfull)
    cases forwardPressed <;> cases runPressed <;>
      simp [blendSwitch, hstate, callPlay, hfull, hlt] at hkeys ⊢

/-- Witness of C6: RUN_TO_WALK in the middle of the blend, at weight 1/2. -/
theorem RUN_TO_WALK_row_witness :
    (globalsAt .RUN_TO_WALK (1 / 2)).animBlendState = .RUN_TO_WALK ∧
    (((blendSwitch true true (globalsAt .RUN_TO_WALK (1 / 2))).animBlendState = .WALK_TO_RUN ∧
        (blendSwitch true true (globalsAt .RUN_TO_WALK (1 / 2))).blendAmount = 0) ∧
      (∀ forwardPressed runPressed : Bool, ¬ (forwardPressed = true ∧ runPressed = true) →
        (min ((globalsAt .RUN_TO_WALK (1 / 2)).blendAmount + blendRate) 1 ≥ 1 →
          (blendSwitch forwardPressed runPressed (globalsAt .RUN_TO_WALK (1 / 2))).animBlendState =
            (if forwardPressed then .WALK else .IDLE)) ∧
        (¬ min ((globalsAt .RUN_TO_WALK (1 / 2)).blendAmount + blendRate) 1 ≥ 1 →
          (blendSwitch forwardPressed runPressed (globalsAt .RUN_TO_WALK (1 / 2))).animBlendState =
              .RUN_TO_WALK ∧
            (blendSwitch forwardPressed runPressed (globalsAt .RUN_TO_WALK (1 / 2))).blendAmount =
              (globalsAt .RUN_TO_WALK (1 / 2)).blendAmount + blendRate))) :=
  ⟨rfl, RUN_TO_WALK_row (globalsAt .RUN_TO_WALK (1 / 2)) rfl⟩

/-- C7 (WALK_TO_RUN row): from WALK_TO_RUN, a frame in which the forward key or the run
key is up goes to RUN_TO_WALK with weight 0, also when the incremented weight has
reached 1; a frame with both keys goes to RUN exactly when
`min (blendAmount + blendRate) 1 ≥ 1` and otherwise stays in WALK_TO_RUN with the
weight increased by `blendRate`. -/
theorem WALK_TO_RUN_row (g : Globals) (hstate : g.animBlendState = .WALK_TO_RUN) :
    (∀ forwardPressed runPressed : Bool, (forwardPressed = false ∨ runPressed = false) →
      (blendSwitch forwardPressed runPressed g).animBlendState = .RUN_TO_WALK ∧
        (blendSwitch forwardPressed runPressed g).blendAmount = 0) ∧
    ((blendSwitch true true g).animBlendState = .RUN ↔
      min (g.blendAmount + blendRate) 1 ≥ 1) ∧
    (¬ min (g.blendAmount + blendRate) 1 ≥ 1 →
      (blendSwitch true true g).animBlendState = .WALK_TO_RUN ∧
        (blendSwitch true true g).blendAmount = g.blendAmount + blendRate) := by
  refine ⟨?_, ?_⟩
  · intro forwardPressed runPressed hkeys
    cases forwardPressed <;> cases runPressed <;>
      simp [blendSwitch, hstate, callPlay] at hkeys ⊢
  · by_cases hfull : 1 ≤ g.blendAmount + blendRate
    · simp [blendSwitch, hstate, callPlay, hfull]
    · have hlt : g.blendAmount + blendRate ≤ 1 := le_of_lt (not_le.mp hfull)
      simp [blendSwitch, hstate, callPlay, hfull, hlt]

/-- Witness of C7: WALK_TO_RUN in the middle of the blend, at weight 1/2. -/
theorem WALK_TO_RUN_row_witness :
    (globalsAt .WALK_TO_RUN (1 / 2)).animBlendState = .WALK_TO_RUN ∧
    ((∀ forwardPressed runPressed : Bool, (forwardPressed = false ∨ runPressed = false) →
        (blendSwitch forwardPressed runPressed (globalsAt .WALK_TO_RUN (1 / 2))).animBlendState =
            .RUN_TO_WALK ∧
          (blendSwitch forwardPressed runPressed (globalsAt .WALK_TO_RUN (1 / 2))).blendAmount = 0) ∧
      ((blendSwitch true true (globalsAt .WALK_TO_RUN (1 / 2))).animBlendState = .RUN ↔
        min ((globalsAt .WALK_TO_RUN (1 / 2)).blendAmount + blendRate) 1 ≥ 1) ∧
      (¬ min ((globalsAt .WALK_TO_RUN (1 / 2)).blendAmount + blendRate) 1 ≥ 1 →
        (blendSwitch true true (globalsAt .WALK_TO_RUN (1 / 2))).animBlendState = .WALK_TO_RUN ∧
          (blendSwitch true true (globalsAt .WALK_TO_RUN (1 / 2))).blendAmount =
            (globalsAt .WALK_TO_RUN (1 / 2)).blendAmount + blendRate)) :=
  ⟨rfl, WALK_TO_RUN_row (globalsAt .WALK_TO_RUN (1 / 2)) rfl⟩

/-- C8 (IDLE_TO_WALK row): from IDLE_TO_WALK, for every combination of the two keys,
the next state is WALK exactly when `min (blendAmount + blendRate) 1 ≥ 1` and
IDLE_TO_WALK otherwise; the two keys influence neither the next state nor the new
weight (the whole result of the frame is the same for all four combinations). -/
theorem IDLE_TO_WALK_row (g : Globals) (hstate : g.animBlendState = .IDLE_TO_WALK)
    (forwardPressed runPressed : Bool) :
    ((blendSwitch forwardPressed runPressed g).animBlendState = .WALK ↔
      min (g.blendAmount + blendRate) 1 ≥ 1) ∧
    (¬ min (g.blendAmount + blendRate) 1 ≥ 1 →
      (blendSwitch forwardPressed runPressed g).animBlendState = .IDLE_TO_WALK) ∧
    (∀ forwardPressed2 runPressed2 : Bool,
      (blendSwitch forwardPressed runPressed g).animBlendState =
          (blendSwitch forwardPressed2 runPressed2 g).animBlendState ∧
        (blendSwitch forwardPressed runPressed g).blendAmount =
          (blendSwitch forwardPressed2 runPressed2 g).blendAmount ∧
        blendSwitch forwardPressed runPressed g = blendSwitch forwardPressed2 runPressed2 g) := by
  have hsame : ∀ a b c d : Bool, blendSwitch a b g = blendSwitch c d g := by
    intro a b c d
    simp [blendSwitch, hstate]
  refine ⟨?_, ?_, fun c d => ⟨by rw [hsame _ _ c d], by rw [hsame _ _ c d], hsame _ _ c d⟩⟩
  · by_cases hfull : 1 ≤ g.blendAmount + blendRate
    · simp [blendSwitch, hstate, callPlay, hfull]
    · simp [blendSwitch, hstate, callPlay, hfull]
  · intro hnot
    have hfull : ¬ 1 ≤ g.blendAmount + blendRate := by simpa using hnot
    simp [blendSwitch, hstate, callPlay, hfull]

/-- Witness of C8: IDLE_TO_WALK at weight 1/2 with the forward key released. -/
theorem IDLE_TO_WALK_row_witness :
    (globalsAt .IDLE_TO_WALK (1 / 2)).animBlendState = .IDLE_TO_WALK ∧
    (((blendSwitch false true (globalsAt .IDLE_TO_WALK (1 / 2))).animBlendState = .WALK ↔
        min ((globalsAt .IDLE_TO_WALK (1 / 2)).blendAmount + blendRate) 1 ≥ 1) ∧
      (¬ min ((globalsAt .IDLE_TO_WALK (1 / 2)).blendAmount + blendRate) 1 ≥ 1 →
        (blendSwitch false true (globalsAt .IDLE_TO_WALK (1 / 2))).animBlendState =
          .IDLE_TO_WALK) ∧
      (∀ forwardPressed2 runPressed2 : Bool,
        (blendSwitch false true (globalsAt .IDLE_TO_WALK (1 / 2))).animBlendState =
            (blendSwitch forwardPressed2 runPressed2
              (globalsAt .IDLE_TO_WALK (1 / 2))).animBlendState ∧
          (blendSwitch false true (globalsAt .IDLE_TO_WALK (1 / 2))).blendAmount =
            (blendSwitch forwardPressed2 runPressed2
              (globalsAt .IDLE_TO_WALK (1 / 2))).blendAmount ∧
          blendSwitch false true (globalsAt .IDLE_TO_WALK (1 / 2)) =
            blendSwitch forwardPressed2 runPressed2 (globalsAt .IDLE_TO_WALK (1 / 2)))) :=
  ⟨rfl, IDLE_TO_WALK_row (globalsAt .IDLE_TO_WALK (1 / 2)) rfl false true⟩

/-- C9 (RUN row): from RUN, a frame in which the forward key or the run key is up goes
to RUN_TO_WALK with weight 0; a frame with both keys stays in RUN with the weight
unchanged; no other state is reached from RUN in one frame. -/
theorem RUN_row (g : Globals) (hstate : g.animBlendState = .RUN) :
    (∀ forwardPressed runPressed : Bool, (forwardPressed = false ∨ runPressed = false) →
      (blendSwitch forwardPressed runPressed g).animBlendState = .RUN_TO_WALK ∧
        (blendSwitch forwardPressed runPressed g).blendAmount = 0) ∧
    ((blendSwitch true true g).animBlendState = .RUN ∧
      (blendSwitch true true g).blendAmount = g.blendAmount) ∧
    (∀ forwardPressed runPressed : Bool,
      (blendSwitch forwardPressed runPressed g).animBlendState = .RUN ∨
        (blendSwitch forwardPressed runPressed g).animBlendState = .RUN_TO_WALK) := by
  refine ⟨?_, by simp [blendSwitch, hstate, callPlay], ?_⟩
  · intro forwardPressed runPressed hkeys
    cases forwardPressed <;> cases runPressed <;>
      simp [blendSwitch, hstate, callPlay] at hkeys ⊢
  · intro forwardPressed runPressed
    cases forwardPressed <;> cases runPressed <;> simp [blendSwitch, hstate, callPlay]

/-- Witness of C9: the RUN state at weight 1/2. -/
theorem RUN_row_witness :
    (globalsAt .RUN (1 / 2)).animBlendState = .RUN ∧
    ((∀ forwardPressed runPressed : Bool, (forwardPressed = false ∨ runPressed = false) →
        (blendSwitch forwardPressed runPressed (globalsAt .RUN (1 / 2))).animBlendState =
            .RUN_TO_WALK ∧
          (blendSwitch forwardPressed runPressed (globalsAt .RUN (1 / 2))).blendAmount = 0) ∧
      ((blendSwitch true true (globalsAt .RUN (1 / 2))).animBlendState = .RUN ∧
        (blendSwitch true true (globalsAt .RUN (1 / 2))).blendAmount =
          (globalsAt .RUN (1 / 2)).blendAmount) ∧
      (∀ forwardPressed runPressed : Bool,
        (blendSwitch forwardPressed runPressed (globalsAt .RUN (1 / 2))).animBlendState = .RUN ∨
          (blendSwitch forwardPressed runPressed (globalsAt .RUN (1 / 2))).animBlendState =
            .RUN_TO_WALK)) :=
  ⟨rfl, RUN_row (globalsAt .RUN (1 / 2)) rfl⟩

/-! ## Scenarios -/

/-- C10, as stated, fails: the frame that leaves IDLE on the forward key ends in
IDLE_TO_WALK with weight 0, not 0.00001 (here from the initial state). -/
theorem IDLE_forward_weight_not_blendRate :
    initialGlobals.animBlendState = .IDLE ∧
    (blendSwitch true false initialGlobals).animBlendState = .IDLE_TO_WALK ∧
    (blendSwitch true false initialGlobals).blendAmount = 0 ∧
    (blendSwitch true false initialGlobals).blendAmount ≠ 1 / 100000 := by
  have hw : (blendSwitch true false initialGlobals).blendAmount = 0 := by
    simp [blendSwitch, callPlay, initialGlobals]
  refine ⟨rfl, by simp [blendSwitch, callPlay, initialGlobals], hw, ?_⟩
  rw [hw]
  norm_num

/-- C10, amended: with `blendRate = 0.00001`, from IDLE a frame with the forward key
moves to IDLE_TO_WALK with weight 0 at the end of that frame; the following frame,
whatever its keys, leaves the state at IDLE_TO_WALK and raises the weight to 0.00001,
which has not reached 1. -/
theorem IDLE_forward_scenario (g : Globals) (hstate : g.animBlendState = .IDLE)
    (runPressed forwardPressed2 runPressed2 : Bool) :
    blendRate = 1 / 100000 ∧
    (blendSwitch true runPressed g).animBlendState = .IDLE_TO_WALK ∧
    (blendSwitch true runPressed g).blendAmount = 0 ∧
    (blendSwitch forwardPressed2 runPressed2 (blendSwitch true runPressed g)).animBlendState =
      .IDLE_TO_WALK ∧
    (blendSwitch forwardPressed2 runPressed2 (blendSwitch true runPressed g)).blendAmount =
      1 / 100000 ∧
    (blendSwitch forwardPressed2 runPressed2 (blendSwitch true runPressed g)).blendAmount < 1 := by
  have h1 : (blendSwitch true runPressed g).animBlendState = .IDLE_TO_WALK := by
    simp [blendSwitch, hstate, callPlay]
  have h2 : (blendSwitch true runPressed g).blendAmount = 0 := by
    simp [blendSwitch, hstate, callPlay]
  have h3 : (blendSwitch forwardPressed2 runPressed2
      (blendSwitch true runPressed g)).animBlendState = .IDLE_TO_WALK := by
    rw [blendSwitch, h1]
    norm_num [h2, callPlay, blendRate]
  have h4 : (blendSwitch forwardPressed2 runPressed2
      (blendSwitch true runPressed g)).blendAmount = 1 / 100000 := by
    rw [blendSwitch, h1]
    norm_num [h2, callPlay, blendRate]
  refine ⟨rfl, h1, h2, h3, h4, ?_⟩
  rw [h4]
  norm_num

/-- Witness of C10 amended: the scenario run from the initial state. -/
theorem IDLE_forward_scenario_witness :
    initialGlobals.animBlendState = .IDLE ∧
    (blendSwitch true false initialGlobals).animBlendState = .IDLE_TO_WALK ∧
    (blendSwitch true false initialGlobals).blendAmount = 0 ∧
    (blendSwitch false false (blendSwitch true false initialGlobals)).animBlendState =
      .IDLE_TO_WALK ∧
    (blendSwitch false false (blendSwitch true false initialGlobals)).blendAmount =
      1 / 100000 :=
  ⟨rfl, (IDLE_forward_scenario initialGlobals rfl false false false).2.1,
    (IDLE_forward_scenario initialGlobals rfl false false false).2.2.1,
    (IDLE_forward_scenario initialGlobals rfl false false false).2.2.2.1,
    (IDLE_forward_scenario initialGlobals rfl false false false).2.2.2.2.1⟩

/-- C11, as stated, fails: a WALK frame with the run key held and the forward key up
goes to WALK_TO_IDLE, not to WALK_TO_RUN. -/
theorem WALK_run_without_forward :
    (globalsAt .WALK (1 / 2)).animBlendState = .WALK ∧
    (blendSwitch false true (globalsAt .WALK (1 / 2))).animBlendState = .WALK_TO_IDLE ∧
    (blendSwitch false true (globalsAt .WALK (1 / 2))).animBlendState ≠ .WALK_TO_RUN := by
  have h : (blendSwitch false true (globalsAt .WALK (1 / 2))).animBlendState =
      .WALK_TO_IDLE := by
    simp [blendSwitch, callPlay, globalsAt, initialGlobals]
  refine ⟨rfl, h, ?_⟩
  rw [h]
  decide

/-- C11, amended: from WALK, every single frame in which the run key and the forward
key are both held goes at once to WALK_TO_RUN with weight 0; a frame with the run key
held and the forward key up goes to WALK_TO_IDLE with weight 0. -/
theorem WALK_run_scenario (g : Globals) (hstate : g.animBlendState = .WALK) :
    ((blendSwitch true true g).animBlendState = .WALK_TO_RUN ∧
      (blendSwitch true true g).blendAmount = 0) ∧
    ((blendSwitch false true g).animBlendState = .WALK_TO_IDLE ∧
      (blendSwitch false true g).blendAmount = 0) := by
  simp [blendSwitch, hstate, callPlay]

/-- Witness of C11 amended: the WALK state at weight 1/2. -/
theorem WALK_run_scenario_witness :
    (globalsAt .WALK (1 / 2)).animBlendState = .WALK ∧
    (((blendSwitch true true (globalsAt .WALK (1 / 2))).animBlendState = .WALK_TO_RUN ∧
        (blendSwitch true true (globalsAt .WALK (1 / 2))).blendAmount = 0) ∧
      ((blendSwitch false true (globalsAt .WALK (1 / 2))).animBlendState = .WALK_TO_IDLE ∧
        (blendSwitch false true (globalsAt .WALK (1 / 2))).blendAmount = 0)) :=
  ⟨rfl, WALK_run_scenario (globalsAt .WALK (1 / 2)) rfl⟩

/-- C12: for every state, every weight in `[0, 1]` and every input combination, a
frame that leaves `animBlendState` unchanged leaves the weight greater than or equal
to what it was. -/
theorem blendAmount_monotone_within_state (forwardPressed runPressed : Bool) (g : Globals)
    (h0 : 0 ≤ g.blendAmount) (h1 : g.blendAmount ≤ 1)
    (hstay : (blendSwitch forwardPressed runPressed g).animBlendState = g.animBlendState) :
    g.blendAmount ≤ (blendSwitch forwardPressed runPressed g).blendAmount := by
  have hr := blendRate_nonneg
  have _hlow := h0
  revert hstay
  cases hs : g.animBlendState <;> cases forwardPressed <;> cases runPressed <;>
    simp [blendSwitch, hs, callPlay] <;> (try split_ifs) <;> simp <;>
    first
      | exact hr
      | exact h1
      | exact ⟨hr, h1⟩

/-- Witness of C12: a WALK_TO_RUN frame at weight 1/2 with both keys held. -/
theorem blendAmount_monotone_within_state_witness :
    (0 ≤ (globalsAt .WALK_TO_RUN (1 / 2)).blendAmount ∧
      (globalsAt .WALK_TO_RUN (1 / 2)).blendAmount ≤ 1) ∧
    (blendSwitch true true (globalsAt .WALK_TO_RUN (1 / 2))).animBlendState =
      (globalsAt .WALK_TO_RUN (1 / 2)).animBlendState ∧
    (globalsAt .WALK_TO_RUN (1 / 2)).blendAmount ≤
      (blendSwitch true true (globalsAt .WALK_TO_RUN (1 / 2))).blendAmount :=
  ⟨⟨by norm_num [globalsAt], by norm_num [globalsAt]⟩,
    by norm_num [blendSwitch, callPlay, globalsAt, initialGlobals, blendRate],
    blendAmount_monotone_within_state true true (globalsAt .WALK_TO_RUN (1 / 2))
      (by norm_num [globalsAt]) (by norm_num [globalsAt])
      (by norm_num [blendSwitch, callPlay, globalsAt, initialGlobals, blendRate])⟩

/-! ## The root-bone sampler -/

/-- C20: `SampleRootTranslation` returns the zero vector when the clip is null, when
the named bone is not found and when the duration is not positive, and so does
`EstimateRootLoopDisplacement`; both are total functions. -/
theorem zero_vector_on_invalid_lookups (rootBoneName : String) (t : ℚ) :
    (SampleRootTranslation none rootBoneName t = 0 ∧
      (∀ anim : Animation, anim.FindBone rootBoneName = none →
        SampleRootTranslation (some anim) rootBoneName t = 0) ∧
      (∀ anim : Animation, anim.GetDuration ≤ 0 →
        SampleRootTranslation (some anim) rootBoneName t = 0)) ∧
    (EstimateRootLoopDisplacement none rootBoneName = 0 ∧
      (∀ anim : Animation, anim.FindBone rootBoneName = none →
        EstimateRootLoopDisplacement (some anim) rootBoneName = 0) ∧
      (∀ anim : Animation, anim.GetDuration ≤ 0 →
        EstimateRootLoopDisplacement (some anim) rootBoneName = 0)) := by
  exact ⟨⟨rfl, fun anim hbone => SampleRootTranslation_degenerate anim _ t (Or.inl hbone),
      fun anim hduration => SampleRootTranslation_degenerate anim _ t (Or.inr hduration)⟩,
    ⟨rfl, fun anim hbone => EstimateRootLoopDisplacement_degenerate anim _ (Or.inl hbone),
      fun anim hduration => EstimateRootLoopDisplacement_degenerate anim _ (Or.inr hduration)⟩⟩

/-- Witness of C20: a clip without bones, and a clip of duration -1. -/
theorem zero_vector_on_invalid_lookups_witness :
    (clipWithoutBones 3).FindBone ROOT_BONE_NAME = none ∧
    (clipWithRoot (-1) (linearBone ⟨1, 1, 1⟩)).GetDuration ≤ 0 ∧
    SampleRootTranslation (some (clipWithoutBones 3)) ROOT_BONE_NAME 1 = 0 ∧
    SampleRootTranslation (some (clipWithRoot (-1) (linearBone ⟨1, 1, 1⟩))) ROOT_BONE_NAME 1 = 0 ∧
    EstimateRootLoopDisplacement (some (clipWithoutBones 3)) ROOT_BONE_NAME = 0 ∧
    EstimateRootLoopDisplacement (some (clipWithRoot (-1) (linearBone ⟨1, 1, 1⟩)))
      ROOT_BONE_NAME = 0 :=
  ⟨rfl, by simp [clipWithRoot],
    (zero_vector_on_invalid_lookups ROOT_BONE_NAME 1).1.2.1 (clipWithoutBones 3) rfl,
    (zero_vector_on_invalid_lookups ROOT_BONE_NAME 1).1.2.2
      (clipWithRoot (-1) (linearBone ⟨1, 1, 1⟩)) (by simp [clipWithRoot]),
    (zero_vector_on_invalid_lookups ROOT_BONE_NAME 1).2.2.1 (clipWithoutBones 3) rfl,
    (zero_vector_on_invalid_lookups ROOT_BONE_NAME 1).2.2.2
      (clipWithRoot (-1) (linearBone ⟨1, 1, 1⟩)) (by simp [clipWithRoot])⟩

/-! ## The per-frame root-motion extraction -/

/-- In a frame with tracking initialised the ground position is left alone in the IDLE
movement state and else loses the world delta of the frame. -/
theorem rootMotionBlock_groundPosition (w : World) (s : Scene)
    (hinit : s.rootMotionInitialized = true) :
    (rootMotionBlock w s).groundPosition =
      if s.globals.movementState = .IDLE then s.groundPosition
      else s.groundPosition -
        worldDeltaOf s.globals.movementState (frameLocalDelta w s) s.deltaTime := by
  by_cases hms : s.globals.movementState = .IDLE
  · simp [rootMotionBlock, hinit, hms]
  · simp only [rootMotionBlock, hinit, frameLocalDelta, frameRootSample, if_neg hms]
    simp only [Bool.not_true, Bool.false_eq_true, if_false, ne_eq, hms, not_false_eq_true,
      if_true]
    split_ifs <;> rfl

/-- Every frame of the block records the sample and time of the frame, marks tracking
initialised and leaves the cached loop displacements alone. -/
theorem rootMotionBlock_tracking (w : World) (s : Scene) :
    (rootMotionBlock w s).previousRootSample = frameRootSample w s ∧
    (rootMotionBlock w s).previousRootTime = s.globals.animator.m_CurrentTime ∧
    (rootMotionBlock w s).rootMotionInitialized = true ∧
    (rootMotionBlock w s).rootLoopDisplacements = s.rootLoopDisplacements := by
  by_cases hinit : s.rootMotionInitialized = true
  · by_cases hms : s.globals.movementState = .IDLE
    · simp [rootMotionBlock, hinit, hms, frameRootSample]
    · simp only [rootMotionBlock, hinit, frameRootSample]
      simp only [Bool.not_true, Bool.false_eq_true, if_false, ne_eq, hms, not_false_eq_true,
        if_true]
      split_ifs <;> exact ⟨rfl, rfl, rfl, rfl⟩
  · simp [rootMotionBlock, hinit, frameRootSample]

/-- The cached loop displacements after start-up: the estimate for the walk and run
clips, the zero vector for the idle clip. -/
theorem cachedLoopDisplacement_startup (w : World) (s : Scene)
    (hcache : s.rootLoopDisplacements = loadRootLoopDisplacements w) :
    cachedLoopDisplacement s .idleAnimation = 0 ∧
    cachedLoopDisplacement s .walkAnimation =
      EstimateRootLoopDisplacement (some (w.animation .walkAnimation)) ROOT_BONE_NAME ∧
    cachedLoopDisplacement s .runAnimation =
      EstimateRootLoopDisplacement (some (w.animation .runAnimation)) ROOT_BONE_NAME := by
  simp [cachedLoopDisplacement, hcache, loadRootLoopDisplacements]

/-- The local delta of a frame on `clip` at play-head `t`. -/
theorem frameLocalDelta_withPlayhead (w : World) (clip : Clip) (s : Scene) (t : ℚ) :
    frameLocalDelta w (s.withPlayhead clip t) =
      if t < s.previousRootTime then
        (cachedLoopDisplacement s clip - s.previousRootSample) +
          SampleRootTranslation (some (w.animation clip)) ROOT_BONE_NAME t
      else SampleRootTranslation (some (w.animation clip)) ROOT_BONE_NAME t -
        s.previousRootSample := by
  simp [frameLocalDelta, frameRootSample, localDeltaOf, motionAnimation, Scene.withPlayhead,
    cachedLoopDisplacement]

/-- The tracking state after a frame on `clip` at play-head `t`. -/
theorem rootMotionBlock_withPlayhead (w : World) (clip : Clip) (s : Scene) (t : ℚ) :
    (rootMotionBlock w (s.withPlayhead clip t)).previousRootSample =
        SampleRootTranslation (some (w.animation clip)) ROOT_BONE_NAME t ∧
    (rootMotionBlock w (s.withPlayhead clip t)).previousRootTime = t ∧
    cachedLoopDisplacement (rootMotionBlock w (s.withPlayhead clip t)) clip =
      cachedLoopDisplacement s clip := by
  obtain ⟨h1, h2, _, h4⟩ := rootMotionBlock_tracking w (s.withPlayhead clip t)
  refine ⟨?_, ?_, ?_⟩
  · rw [h1]
    simp [frameRootSample, motionAnimation, Scene.withPlayhead]
  · rw [h2]
    simp [Scene.withPlayhead]
  · simp only [cachedLoopDisplacement, h4]
    rfl

/-- Telescoping of the local deltas: from a scene whose previous sample is the sample
of `clip` at its previous time, the deltas of the frames at times `ts` add up to the
difference of the last and the first sample plus one cached loop displacement per wrap. -/
theorem extractDeltas_sum (w : World) (clip : Clip) (ts : List ℚ) :
    ∀ s : Scene,
      s.previousRootSample =
        SampleRootTranslation (some (w.animation clip)) ROOT_BONE_NAME s.previousRootTime →
      Vec3.sum (extractDeltas w clip s ts) =
        (SampleRootTranslation (some (w.animation clip)) ROOT_BONE_NAME
              (lastTime s.previousRootTime ts) -
            SampleRootTranslation (some (w.animation clip)) ROOT_BONE_NAME s.previousRootTime) +
          cachedLoopDisplacement s clip * ((countWraps s.previousRootTime ts : ℕ) : ℚ) := by
  induction ts with
  | nil =>
    intro s _
    simp only [extractDeltas, Vec3.sum, lastTime, countWraps]
    ext <;> simp [Vec3.add_def, Vec3.sub_def, Vec3.mul_def]
  | cons t rest ih =>
    intro s hprev
    obtain ⟨h1, h2, h3⟩ := rootMotionBlock_withPlayhead w clip s t
    have hnext := ih (rootMotionBlock w (s.withPlayhead clip t)) (by rw [h1, h2])
    simp only [extractDeltas, Vec3.sum, lastTime, countWraps]
    rw [hnext, h2, h3, frameLocalDelta_withPlayhead, hprev]
    by_cases hlt : t < s.previousRootTime
    · simp only [if_pos hlt]
      ext <;> simp [Vec3.add_def, Vec3.sub_def, Vec3.mul_def] <;> ring
    · simp only [if_neg hlt]
      ext <;> simp [Vec3.add_def, Vec3.sub_def, Vec3.mul_def] <;> ring

/-- C13: in a frame with tracking initialised, the local delta is
`(loopDisplacement - previousRootSample) + currentSample` when the animation time is
strictly below `previousRootTime`, with `loopDisplacement` the cached displacement of the
active clip, and `currentSample - previousRootSample` otherwise; this is the delta the
frame turns into the ground displacement. -/
theorem local_delta_per_frame (w : World) (s : Scene) (loopDisplacement : Vec3)
    (hinit : s.rootMotionInitialized = true)
    (hcached : s.rootLoopDisplacements (motionAnimation s) = some loopDisplacement) :
    (s.globals.animator.m_CurrentTime < s.previousRootTime →
      frameLocalDelta w s =
        (loopDisplacement - s.previousRootSample) + frameRootSample w s) ∧
    (¬ s.globals.animator.m_CurrentTime < s.previousRootTime →
      frameLocalDelta w s = frameRootSample w s - s.previousRootSample) ∧
    (s.globals.movementState ≠ .IDLE →
      (rootMotionBlock w s).groundPosition = s.groundPosition -
        worldDeltaOf s.globals.movementState (frameLocalDelta w s) s.deltaTime) := by
  refine ⟨fun hlt => ?_, fun hge => ?_, fun hms => ?_⟩
  · simp [frameLocalDelta, localDeltaOf, cachedLoopDisplacement, hlt, hcached]
  · simp [frameLocalDelta, localDeltaOf, hge]
  · rw [rootMotionBlock_groundPosition w s hinit, if_neg hms]

/-- Witness of C13: a frame of the walk clip at play-head 1 after a frame at 9, a loop
wrap, with the displacement cached at start-up. -/
theorem local_delta_per_frame_witness :
    (trackedScene (worldOf (clipWithRoot 10 (linearBone ⟨1, 0, 0⟩))) .WALK 1 (1 / 60)
        ⟨9, 0, 0⟩ 9).rootMotionInitialized = true ∧
    (trackedScene (worldOf (clipWithRoot 10 (linearBone ⟨1, 0, 0⟩))) .WALK 1 (1 / 60)
        ⟨9, 0, 0⟩ 9).globals.animator.m_CurrentTime <
      (trackedScene (worldOf (clipWithRoot 10 (linearBone ⟨1, 0, 0⟩))) .WALK 1 (1 / 60)
        ⟨9, 0, 0⟩ 9).previousRootTime ∧
    frameLocalDelta (worldOf (clipWithRoot 10 (linearBone ⟨1, 0, 0⟩)))
        (trackedScene (worldOf (clipWithRoot 10 (linearBone ⟨1, 0, 0⟩))) .WALK 1 (1 / 60)
          ⟨9, 0, 0⟩ 9) =
      (EstimateRootLoopDisplacement
            (some ((worldOf (clipWithRoot 10 (linearBone ⟨1, 0, 0⟩))).animation .walkAnimation))
            ROOT_BONE_NAME -
          (trackedScene (worldOf (clipWithRoot 10 (linearBone ⟨1, 0, 0⟩))) .WALK 1 (1 / 60)
            ⟨9, 0, 0⟩ 9).previousRootSample) +
        frameRootSample (worldOf (clipWithRoot 10 (linearBone ⟨1, 0, 0⟩)))
          (trackedScene (worldOf (clipWithRoot 10 (linearBone ⟨1, 0, 0⟩))) .WALK 1 (1 / 60)
            ⟨9, 0, 0⟩ 9) :=
  ⟨rfl, by norm_num [trackedScene, initialGlobals],
    (local_delta_per_frame (worldOf (clipWithRoot 10 (linearBone ⟨1, 0, 0⟩)))
      (trackedScene (worldOf (clipWithRoot 10 (linearBone ⟨1, 0, 0⟩))) .WALK 1 (1 / 60)
        ⟨9, 0, 0⟩ 9)
      (EstimateRootLoopDisplacement
        (some ((worldOf (clipWithRoot 10 (linearBone ⟨1, 0, 0⟩))).animation .walkAnimation))
        ROOT_BONE_NAME)
      rfl rfl).1 (by norm_num [trackedScene, initialGlobals])⟩

/-- C15: in a frame with tracking initialised whose local delta has a magnitude below
0.0001, the displacement taken off the ground position is `facingDir * speed * deltaTime`
with `facingDir = (0, 0, -1)`, `speed = walkSpeed = 1.25` in the WALK movement state
and `speed = runSpeed = 4` in the RUN movement state. -/
theorem fallback_displacement (w : World) (s : Scene)
    (hinit : s.rootMotionInitialized = true)
    (hsmall : (frameLocalDelta w s).lengthLt (1 / 10000)) :
    (s.globals.movementState = .WALK →
      (rootMotionBlock w s).groundPosition =
        s.groundPosition - facingDir * walkSpeed * s.deltaTime) ∧
    (s.globals.movementState = .RUN →
      (rootMotionBlock w s).groundPosition =
        s.groundPosition - facingDir * runSpeed * s.deltaTime) ∧
    facingDir = ⟨0, 0, -1⟩ ∧ walkSpeed = 5 / 4 ∧ runSpeed = 4 := by
  refine ⟨fun hms => ?_, fun hms => ?_, rfl, rfl, rfl⟩
  · rw [rootMotionBlock_groundPosition w s hinit, worldDeltaOf_small _ _ _ hsmall, hms]
    simp
  · rw [rootMotionBlock_groundPosition w s hinit, worldDeltaOf_small _ _ _ hsmall, hms]
    simp

/-- Witness of C15: a RUN frame on a clip without root motion. -/
theorem fallback_displacement_witness :
    (trackedScene (worldOf (clipWithRoot 10 (linearBone 0))) .RUN 1 (1 / 60)
        0 0).rootMotionInitialized = true ∧
    (frameLocalDelta (worldOf (clipWithRoot 10 (linearBone 0)))
        (trackedScene (worldOf (clipWithRoot 10 (linearBone 0))) .RUN 1 (1 / 60) 0 0)).lengthLt
      (1 / 10000) ∧
    (rootMotionBlock (worldOf (clipWithRoot 10 (linearBone 0)))
        (trackedScene (worldOf (clipWithRoot 10 (linearBone 0))) .RUN 1 (1 / 60)
          0 0)).groundPosition =
      (trackedScene (worldOf (clipWithRoot 10 (linearBone 0))) .RUN 1 (1 / 60)
          0 0).groundPosition -
        facingDir * runSpeed *
          (trackedScene (worldOf (clipWithRoot 10 (linearBone 0))) .RUN 1 (1 / 60)
            0 0).deltaTime :=
  have hsmall : (frameLocalDelta (worldOf (clipWithRoot 10 (linearBone 0)))
      (trackedScene (worldOf (clipWithRoot 10 (linearBone 0))) .RUN 1 (1 / 60) 0 0)).lengthLt
      (1 / 10000) := by
    rw [frameLocalDelta_trackedScene 10 (linearBone 0) .RUN 1 (1 / 60) 0 0
      (by norm_num) (by norm_num) (by norm_num)]
    norm_num [Vec3.lengthLt, linearBone, Vec3.sub_def, Vec3.mul_def, Vec3.zero_def]
  ⟨rfl, hsmall,
    (fallback_displacement (worldOf (clipWithRoot 10 (linearBone 0)))
      (trackedScene (worldOf (clipWithRoot 10 (linearBone 0))) .RUN 1 (1 / 60) 0 0)
      rfl hsmall).2.1 rfl⟩

/-- C16, as stated, fails: a WALK frame with `deltaTime > 0` on a clip whose root bone
moves straight up has the local delta `(0, 1, 0)`, above the threshold, and leaves
the ground position where it was. -/
theorem vertical_root_motion_no_displacement :
    (trackedScene (worldOf (clipWithRoot 10 (linearBone ⟨0, 1, 0⟩))) .WALK 1 (1 / 60)
        0 0).rootMotionInitialized = true ∧
    (trackedScene (worldOf (clipWithRoot 10 (linearBone ⟨0, 1, 0⟩))) .WALK 1 (1 / 60)
        0 0).globals.movementState = .WALK ∧
    0 < (trackedScene (worldOf (clipWithRoot 10 (linearBone ⟨0, 1, 0⟩))) .WALK 1 (1 / 60)
        0 0).deltaTime ∧
    frameLocalDelta (worldOf (clipWithRoot 10 (linearBone ⟨0, 1, 0⟩)))
        (trackedScene (worldOf (clipWithRoot 10 (linearBone ⟨0, 1, 0⟩))) .WALK 1 (1 / 60)
          0 0) = ⟨0, 1, 0⟩ ∧
    (rootMotionBlock (worldOf (clipWithRoot 10 (linearBone ⟨0, 1, 0⟩)))
        (trackedScene (worldOf (clipWithRoot 10 (linearBone ⟨0, 1, 0⟩))) .WALK 1 (1 / 60)
          0 0)).groundPosition =
      (trackedScene (worldOf (clipWithRoot 10 (linearBone ⟨0, 1, 0⟩))) .WALK 1 (1 / 60)
        0 0).groundPosition := by
  have hdelta : frameLocalDelta (worldOf (clipWithRoot 10 (linearBone ⟨0, 1, 0⟩)))
      (trackedScene (worldOf (clipWithRoot 10 (linearBone ⟨0, 1, 0⟩))) .WALK 1 (1 / 60)
        0 0) = ⟨0, 1, 0⟩ := by
    rw [frameLocalDelta_trackedScene 10 (linearBone ⟨0, 1, 0⟩) .WALK 1 (1 / 60) 0 0
      (by norm_num) (by norm_num) (by norm_num)]
    norm_num [linearBone, Vec3.sub_def, Vec3.mul_def, Vec3.zero_def]
  refine ⟨rfl, rfl, by norm_num [trackedScene], hdelta, ?_⟩
  rw [rootMotionBlock_groundPosition _ _ rfl, hdelta,
    worldDeltaOf_large _ _ _ (by norm_num [Vec3.lengthLt])]
  simp [trackedScene, initialScene, initialGlobals, Vec3.sub_def, Vec3.zero_def]

/-- C16, amended: in a frame with tracking initialised, movement state WALK or RUN and
`deltaTime > 0`, the displacement applied to the ground position is non-zero whenever
the local delta has a magnitude below 0.0001 (the fallback) or a non-zero horizontal
component `(dx, dz)`. -/
theorem visible_locomotion (w : World) (s : Scene)
    (hinit : s.rootMotionInitialized = true)
    (hms : s.globals.movementState = .WALK ∨ s.globals.movementState = .RUN)
    (hdt : 0 < s.deltaTime)
    (hdelta : (frameLocalDelta w s).lengthLt (1 / 10000) ∨
      (frameLocalDelta w s).x ≠ 0 ∨ (frameLocalDelta w s).z ≠ 0) :
    (rootMotionBlock w s).groundPosition ≠ s.groundPosition := by
  have hnotidle : s.globals.movementState ≠ .IDLE := by
    rcases hms with h | h <;> rw [h] <;> decide
  rw [rootMotionBlock_groundPosition w s hinit, if_neg hnotidle]
  have hdtne : s.deltaTime ≠ 0 := ne_of_gt hdt
  by_cases hsmall : (frameLocalDelta w s).lengthLt (1 / 10000)
  · rw [worldDeltaOf_small _ _ _ hsmall]
    intro heq
    have hz := congrArg Vec3.z heq
    rcases hms with h | h <;>
      simp [h, Vec3.sub_def, Vec3.mul_def, facingDir, walkSpeed, runSpeed, hdtne] at hz
  · rw [worldDeltaOf_large _ _ _ hsmall]
    intro heq
    have hx := congrArg Vec3.x heq
    have hz := congrArg Vec3.z heq
    simp only [Vec3.sub_def, sub_eq_self] at hx hz
    rcases hdelta with h | h | h
    · exact hsmall h
    · exact h hx
    · exact h hz

/-- Witness of C16 amended: a WALK frame on a clip whose root moves along x. -/
theorem visible_locomotion_witness :
    (trackedScene (worldOf (clipWithRoot 10 (linearBone ⟨1, 0, 0⟩))) .WALK 1 (1 / 60)
        0 0).rootMotionInitialized = true ∧
    0 < (trackedScene (worldOf (clipWithRoot 10 (linearBone ⟨1, 0, 0⟩))) .WALK 1 (1 / 60)
        0 0).deltaTime ∧
    (frameLocalDelta (worldOf (clipWithRoot 10 (linearBone ⟨1, 0, 0⟩)))
        (trackedScene (worldOf (clipWithRoot 10 (linearBone ⟨1, 0, 0⟩))) .WALK 1 (1 / 60)
          0 0)).x ≠ 0 ∧
    (rootMotionBlock (worldOf (clipWithRoot 10 (linearBone ⟨1, 0, 0⟩)))
        (trackedScene (worldOf (clipWithRoot 10 (linearBone ⟨1, 0, 0⟩))) .WALK 1 (1 / 60)
          0 0)).groundPosition ≠
      (trackedScene (worldOf (clipWithRoot 10 (linearBone ⟨1, 0, 0⟩))) .WALK 1 (1 / 60)
        0 0).groundPosition :=
  have hx : (frameLocalDelta (worldOf (clipWithRoot 10 (linearBone ⟨1, 0, 0⟩)))
      (trackedScene (worldOf (clipWithRoot 10 (linearBone ⟨1, 0, 0⟩))) .WALK 1 (1 / 60)
        0 0)).x ≠ 0 := by
    rw [frameLocalDelta_trackedScene 10 (linearBone ⟨1, 0, 0⟩) .WALK 1 (1 / 60) 0 0
      (by norm_num) (by norm_num) (by norm_num)]
    norm_num [linearBone, Vec3.sub_def, Vec3.mul_def, Vec3.zero_def]
  ⟨rfl, by norm_num [trackedScene], hx,
    visible_locomotion (worldOf (clipWithRoot 10 (linearBone ⟨1, 0, 0⟩)))
      (trackedScene (worldOf (clipWithRoot 10 (linearBone ⟨1, 0, 0⟩))) .WALK 1 (1 / 60) 0 0)
      rfl (Or.inl rfl) (by norm_num [trackedScene]) (Or.inr (Or.inl hx))⟩

/-- C18: in a frame with tracking initialised, movement state WALK or RUN and a local
delta `(dx, dy, dz)` of magnitude at least 0.0001, the ground position after the frame
is the ground position before it minus `(dx, 0, dz)`; its vertical component is
unchanged. -/
theorem ground_update_from_root_motion (w : World) (s : Scene)
    (hinit : s.rootMotionInitialized = true)
    (hms : s.globals.movementState = .WALK ∨ s.globals.movementState = .RUN)
    (hlarge : ¬ (frameLocalDelta w s).lengthLt (1 / 10000)) :
    (rootMotionBlock w s).groundPosition =
        s.groundPosition - ⟨(frameLocalDelta w s).x, 0, (frameLocalDelta w s).z⟩ ∧
      (rootMotionBlock w s).groundPosition.y = s.groundPosition.y := by
  have hnotidle : s.globals.movementState ≠ .IDLE := by
    rcases hms with h | h <;> rw [h] <;> decide
  have hground : (rootMotionBlock w s).groundPosition =
      s.groundPosition - ⟨(frameLocalDelta w s).x, 0, (frameLocalDelta w s).z⟩ := by
    rw [rootMotionBlock_groundPosition w s hinit, if_neg hnotidle,
      worldDeltaOf_large _ _ _ hlarge]
  refine ⟨hground, ?_⟩
  rw [hground]
  simp [Vec3.sub_def]

/-- Witness of C18: a RUN frame on a clip whose root moves along `(1, 1, 1)`. -/
theorem ground_update_from_root_motion_witness :
    (trackedScene (worldOf (clipWithRoot 10 (linearBone ⟨1, 1, 1⟩))) .RUN 1 (1 / 60)
        0 0).rootMotionInitialized = true ∧
    ¬ (frameLocalDelta (worldOf (clipWithRoot 10 (linearBone ⟨1, 1, 1⟩)))
        (trackedScene (worldOf (clipWithRoot 10 (linearBone ⟨1, 1, 1⟩))) .RUN 1 (1 / 60)
          0 0)).lengthLt (1 / 10000) ∧
    (rootMotionBlock (worldOf (clipWithRoot 10 (linearBone ⟨1, 1, 1⟩)))
        (trackedScene (worldOf (clipWithRoot 10 (linearBone ⟨1, 1, 1⟩))) .RUN 1 (1 / 60)
          0 0)).groundPosition.y =
      (trackedScene (worldOf (clipWithRoot 10 (linearBone ⟨1, 1, 1⟩))) .RUN 1 (1 / 60)
        0 0).groundPosition.y :=
  have hlarge : ¬ (frameLocalDelta (worldOf (clipWithRoot 10 (linearBone ⟨1, 1, 1⟩)))
      (trackedScene (worldOf (clipWithRoot 10 (linearBone ⟨1, 1, 1⟩))) .RUN 1 (1 / 60)
        0 0)).lengthLt (1 / 10000) := by
    rw [frameLocalDelta_trackedScene 10 (linearBone ⟨1, 1, 1⟩) .RUN 1 (1 / 60) 0 0
      (by norm_num) (by norm_num) (by norm_num)]
    norm_num [Vec3.lengthLt, linearBone, Vec3.sub_def, Vec3.mul_def, Vec3.zero_def]
  ⟨rfl, hlarge,
    (ground_update_from_root_motion (worldOf (clipWithRoot 10 (linearBone ⟨1, 1, 1⟩)))
      (trackedScene (worldOf (clipWithRoot 10 (linearBone ⟨1, 1, 1⟩))) .RUN 1 (1 / 60) 0 0)
      rfl (Or.inr rfl) hlarge).2⟩

/-! ## Cumulative displacement and degenerate clips -/

/-- C14, as stated, fails for the idle clip, whose cached loop displacement is the zero
vector whatever the clip holds: with an idle clip of duration 1 whose root moves along
x, tracking initialised at time 0 and frames at 1/2 and 0 (one wrap, back at the
start), the local deltas add up to zero, not to one `EstimateRootLoopDisplacement`. -/
theorem idle_loop_not_estimate :
    lastTime 0 [1 / 2, 0] = 0 ∧ countWraps 0 [1 / 2, 0] = 1 ∧
    EstimateRootLoopDisplacement
        (some ((worldOf (clipWithRoot 1 (linearBone ⟨1, 0, 0⟩))).animation .idleAnimation))
        ROOT_BONE_NAME = ⟨9999 / 10000, 0, 0⟩ ∧
    Vec3.sum (extractDeltas (worldOf (clipWithRoot 1 (linearBone ⟨1, 0, 0⟩))) .idleAnimation
        (rootMotionBlock (worldOf (clipWithRoot 1 (linearBone ⟨1, 0, 0⟩)))
          ((initialScene (worldOf (clipWithRoot 1 (linearBone ⟨1, 0, 0⟩)))).withPlayhead
            .idleAnimation 0))
        [1 / 2, 0]) = 0 ∧
    Vec3.sum (extractDeltas (worldOf (clipWithRoot 1 (linearBone ⟨1, 0, 0⟩))) .idleAnimation
        (rootMotionBlock (worldOf (clipWithRoot 1 (linearBone ⟨1, 0, 0⟩)))
          ((initialScene (worldOf (clipWithRoot 1 (linearBone ⟨1, 0, 0⟩)))).withPlayhead
            .idleAnimation 0))
        [1 / 2, 0]) ≠
      EstimateRootLoopDisplacement
          (some ((worldOf (clipWithRoot 1 (linearBone ⟨1, 0, 0⟩))).animation .idleAnimation))
          ROOT_BONE_NAME * ((countWraps 0 [1 / 2, 0] : ℕ) : ℚ) := by
  have hlast : lastTime 0 [1 / 2, 0] = 0 := rfl
  have hwraps : countWraps 0 [1 / 2, 0] = 1 := by
    norm_num [countWraps]
  have hsample : ∀ t : ℚ, 0 ≤ t → t < 1 →
      SampleRootTranslation (some (clipWithRoot 1 (linearBone ⟨1, 0, 0⟩))) ROOT_BONE_NAME t =
        ⟨t, 0, 0⟩ := by
    intro t h0 h1
    simp [SampleRootTranslation, clipWithRoot, wrapTime_of_mem t 1 h0 h1, linearBone,
      Vec3.mul_def]
  have hest : EstimateRootLoopDisplacement
      (some ((worldOf (clipWithRoot 1 (linearBone ⟨1, 0, 0⟩))).animation .idleAnimation))
      ROOT_BONE_NAME = ⟨9999 / 10000, 0, 0⟩ := by
    rw [EstimateRootLoopDisplacement_eq]
    simp only [worldOf, clipWithRoot]
    have h1 := hsample (1 - 1 / 10000) (by norm_num) (by norm_num)
    have h2 := hsample 0 (by norm_num) (by norm_num)
    simp only [clipWithRoot] at h1 h2
    rw [h1, h2]
    norm_num [Vec3.sub_def]
  obtain ⟨h1, h2, h3⟩ := rootMotionBlock_withPlayhead
    (worldOf (clipWithRoot 1 (linearBone ⟨1, 0, 0⟩))) .idleAnimation
    (initialScene (worldOf (clipWithRoot 1 (linearBone ⟨1, 0, 0⟩)))) 0
  have hsum : Vec3.sum (extractDeltas (worldOf (clipWithRoot 1 (linearBone ⟨1, 0, 0⟩)))
      .idleAnimation
      (rootMotionBlock (worldOf (clipWithRoot 1 (linearBone ⟨1, 0, 0⟩)))
        ((initialScene (worldOf (clipWithRoot 1 (linearBone ⟨1, 0, 0⟩)))).withPlayhead
          .idleAnimation 0))
      [1 / 2, 0]) = 0 := by
    rw [extractDeltas_sum _ _ _ _ (by rw [h1, h2]), h2, h3, hlast, hwraps]
    ext <;>
      simp [Vec3.add_def, Vec3.sub_def, Vec3.mul_def, cachedLoopDisplacement, initialScene,
        loadRootLoopDisplacements]
  refine ⟨hlast, hwraps, hest, hsum, ?_⟩
  rw [hsum, hest, hwraps]
  intro heq
  have hx := congrArg Vec3.x heq
  norm_num [Vec3.mul_def] at hx

/-- C14, amended: for one clip with root sampler `S` and cached loop displacement `L`,
and for every sequence of frame times `t₀, t₁, ..., tₙ` fed to the per-frame extractor
after the frame at `t₀`, the local deltas add up to `S(tₙ) - S(t₀) + k * L`, with `k` the
number of frames whose time is smaller than the time of the frame before; when the
play-head is back at `t₀` the sum is `k * L`. After start-up `L` is
`EstimateRootLoopDisplacement = S(duration - 0.0001) - S(0)` for the walk and run clips
and the zero vector for the idle clip. -/
theorem cumulative_root_displacement (w : World) (clip : Clip) (s₀ : Scene) (t₀ : ℚ)
    (ts : List ℚ) :
    Vec3.sum (extractDeltas w clip (rootMotionBlock w (s₀.withPlayhead clip t₀)) ts) =
        (SampleRootTranslation (some (w.animation clip)) ROOT_BONE_NAME (lastTime t₀ ts) -
            SampleRootTranslation (some (w.animation clip)) ROOT_BONE_NAME t₀) +
          cachedLoopDisplacement s₀ clip * ((countWraps t₀ ts : ℕ) : ℚ) ∧
    (lastTime t₀ ts = t₀ →
      Vec3.sum (extractDeltas w clip (rootMotionBlock w (s₀.withPlayhead clip t₀)) ts) =
        cachedLoopDisplacement s₀ clip * ((countWraps t₀ ts : ℕ) : ℚ)) ∧
    (s₀.rootLoopDisplacements = loadRootLoopDisplacements w →
      (clip ≠ .idleAnimation →
        cachedLoopDisplacement s₀ clip =
            EstimateRootLoopDisplacement (some (w.animation clip)) ROOT_BONE_NAME ∧
          EstimateRootLoopDisplacement (some (w.animation clip)) ROOT_BONE_NAME =
            SampleRootTranslation (some (w.animation clip)) ROOT_BONE_NAME
                ((w.animation clip).GetDuration - 1 / 10000) -
              SampleRootTranslation (some (w.animation clip)) ROOT_BONE_NAME 0) ∧
      (clip = .idleAnimation → cachedLoopDisplacement s₀ clip = 0)) := by
  obtain ⟨h1, h2, h3⟩ := rootMotionBlock_withPlayhead w clip s₀ t₀
  have hsum := extractDeltas_sum w clip ts (rootMotionBlock w (s₀.withPlayhead clip t₀))
    (by rw [h1, h2])
  rw [h2, h3] at hsum
  refine ⟨hsum, fun hback => ?_, fun hcache => ⟨fun hclip => ⟨?_, ?_⟩, fun hclip => ?_⟩⟩
  · rw [hsum, hback]
    ext <;> simp [Vec3.add_def, Vec3.sub_def, Vec3.mul_def]
  · obtain ⟨_, hwalk, hrun⟩ := cachedLoopDisplacement_startup w s₀ hcache
    cases clip
    · exact absurd rfl hclip
    · exact hwalk
    · exact hrun
  · exact EstimateRootLoopDisplacement_eq _ _
  · rw [hclip]
    exact (cachedLoopDisplacement_startup w s₀ hcache).1

/-- Witness of C14 amended: the walk clip of duration 1, initialised at time 0, with
frames at 1/2 and 0. -/
theorem cumulative_root_displacement_witness :
    lastTime 0 [1 / 2, 0] = 0 ∧
    Vec3.sum (extractDeltas (worldOf (clipWithRoot 1 (linearBone ⟨1, 0, 0⟩))) .walkAnimation
        (rootMotionBlock (worldOf (clipWithRoot 1 (linearBone ⟨1, 0, 0⟩)))
          ((initialScene (worldOf (clipWithRoot 1 (linearBone ⟨1, 0, 0⟩)))).withPlayhead
            .walkAnimation 0))
        [1 / 2, 0]) =
      cachedLoopDisplacement (initialScene (worldOf (clipWithRoot 1 (linearBone ⟨1, 0, 0⟩))))
          .walkAnimation * ((countWraps 0 [1 / 2, 0] : ℕ) : ℚ) ∧
    cachedLoopDisplacement (initialScene (worldOf (clipWithRoot 1 (linearBone ⟨1, 0, 0⟩))))
        .walkAnimation =
      EstimateRootLoopDisplacement
        (some ((worldOf (clipWithRoot 1 (linearBone ⟨1, 0, 0⟩))).animation .walkAnimation))
        ROOT_BONE_NAME :=
  ⟨rfl,
    (cumulative_root_displacement (worldOf (clipWithRoot 1 (linearBone ⟨1, 0, 0⟩)))
      .walkAnimation (initialScene (worldOf (clipWithRoot 1 (linearBone ⟨1, 0, 0⟩)))) 0
      [1 / 2, 0]).2.1 rfl,
    ((cumulative_root_displacement (worldOf (clipWithRoot 1 (linearBone ⟨1, 0, 0⟩)))
      .walkAnimation (initialScene (worldOf (clipWithRoot 1 (linearBone ⟨1, 0, 0⟩)))) 0
      [1 / 2, 0]).2.2 rfl).1 (by decide) |>.1⟩

/-- C28: if the movement state after the switch is RUN, then both keys were held in
that frame and the resulting blend state is WALK_TO_RUN or RUN; conversely a resulting
blend state WALK_TO_RUN or RUN always comes with the movement state RUN. -/
theorem run_class_requires_both_keys (forwardPressed runPressed : Bool) (g : Globals) :
    ((blendSwitch forwardPressed runPressed g).movementState = .RUN →
      forwardPressed = true ∧ runPressed = true ∧
        ((blendSwitch forwardPressed runPressed g).animBlendState = .WALK_TO_RUN ∨
          (blendSwitch forwardPressed runPressed g).animBlendState = .RUN)) ∧
    (((blendSwitch forwardPressed runPressed g).animBlendState = .WALK_TO_RUN ∨
        (blendSwitch forwardPressed runPressed g).animBlendState = .RUN) →
      (blendSwitch forwardPressed runPressed g).movementState = .RUN) := by
  cases hs : g.animBlendState <;> cases forwardPressed <;> cases runPressed <;>
    simp [blendSwitch, hs, callPlay] <;> split_ifs <;> simp

/-- Witness of C28: a WALK frame with both keys held. -/
theorem run_class_requires_both_keys_witness :
    (blendSwitch true true (globalsAt .WALK (1 / 2))).movementState = .RUN ∧
    ((true = true ∧ true = true) ∧
      ((blendSwitch true true (globalsAt .WALK (1 / 2))).animBlendState = .WALK_TO_RUN ∨
        (blendSwitch true true (globalsAt .WALK (1 / 2))).animBlendState = .RUN)) :=
  have hrun : (blendSwitch true true (globalsAt .WALK (1 / 2))).movementState = .RUN := by
    simp [blendSwitch, callPlay, globalsAt, initialGlobals]
  ⟨hrun,
    ⟨((run_class_requires_both_keys true true (globalsAt .WALK (1 / 2))).1 hrun).1,
      ((run_class_requires_both_keys true true (globalsAt .WALK (1 / 2))).1 hrun).2.1⟩,
    ((run_class_requires_both_keys true true (globalsAt .WALK (1 / 2))).1 hrun).2.2⟩

/-- C23: at the end of every frame the last `PlayAnimation` call of the frame names the
clip pair the table assigns to the resulting state, and passes as blend weight the
current `blendAmount` in the four blend states and 0 in the three steady states. -/
theorem last_call_matches_state (forwardPressed runPressed : Bool) (g : Globals) :
    ∃ call : PlayCall,
      (blendSwitch forwardPressed runPressed g).played.getLast? = some call ∧
      (call.pAnimation, call.pAnimation2) =
        specClipPair (blendSwitch forwardPressed runPressed g).animBlendState ∧
      call.blend =
        (if specIsBlendState (blendSwitch forwardPressed runPressed g).animBlendState then
          (blendSwitch forwardPressed runPressed g).blendAmount
        else 0) := by
  by_cases hfull : 1 ≤ g.blendAmount + blendRate <;>
    cases hs : g.animBlendState <;> cases forwardPressed <;> cases runPressed <;>
    simp [blendSwitch, hs, callPlay, hfull, specClipPair, specIsBlendState]

/-- C22, as stated, fails for RUN_TO_WALK -> IDLE: with the second play-head at 3 and
the forward key up, the frame that completes RUN_TO_WALK starts the idle clip with the
call `PlayAnimation(idle, none, 0, 0, 0)`, at play-head 0 and not at 3. -/
theorem RUN_TO_WALK_to_IDLE_starts_at_zero :
    (globalsAtPlayheads .RUN_TO_WALK 1 2 3).animator.m_CurrentTime2 = 3 ∧
    (blendSwitch false false (globalsAtPlayheads .RUN_TO_WALK 1 2 3)).animBlendState = .IDLE ∧
    (blendSwitch false false (globalsAtPlayheads .RUN_TO_WALK 1 2 3)).played.getLast? =
      some ⟨.idleAnimation, none, 0, 0, 0⟩ ∧
    (blendSwitch false false (globalsAtPlayheads .RUN_TO_WALK 1 2 3)).played.getLast? ≠
      some ⟨.idleAnimation, none, 3, 0, 0⟩ := by
  have hlast : (blendSwitch false false (globalsAtPlayheads .RUN_TO_WALK 1 2 3)).played.getLast? =
      some ⟨.idleAnimation, none, 0, 0, 0⟩ := by
    norm_num [blendSwitch, callPlay, globalsAtPlayheads, initialGlobals, blendRate]
  refine ⟨rfl, ?_, hlast, ?_⟩
  · norm_num [blendSwitch, callPlay, globalsAtPlayheads, initialGlobals, blendRate]
  · rw [hlast]
    intro heq
    have htime := congrArg PlayCall.time1 (Option.some.inj heq)
    norm_num at htime

/-- C22, amended: in every frame in which a blend completes by IDLE_TO_WALK -> WALK,
WALK_TO_IDLE -> IDLE, WALK_TO_RUN -> RUN or RUN_TO_WALK -> WALK, the last call of the
frame is the single-clip `PlayAnimation` call of the new steady state, and its
play-head time is the second play-head `m_CurrentTime2` of the animator in that frame. -/
theorem playhead_handoff_at_completion (g : Globals)
    (hfull : 1 ≤ g.blendAmount + blendRate) :
    (g.animBlendState = .IDLE_TO_WALK → ∀ forwardPressed runPressed : Bool,
      (blendSwitch forwardPressed runPressed g).animBlendState = .WALK ∧
        (blendSwitch forwardPressed runPressed g).played.getLast? =
          some ⟨.walkAnimation, none, g.animator.m_CurrentTime2, 0, 0⟩) ∧
    (g.animBlendState = .WALK_TO_IDLE → ∀ runPressed : Bool,
      (blendSwitch false runPressed g).animBlendState = .IDLE ∧
        (blendSwitch false runPressed g).played.getLast? =
          some ⟨.idleAnimation, none, g.animator.m_CurrentTime2, 0, 0⟩) ∧
    (g.animBlendState = .WALK_TO_RUN →
      (blendSwitch true true g).animBlendState = .RUN ∧
        (blendSwitch true true g).played.getLast? =
          some ⟨.runAnimation, none, g.animator.m_CurrentTime2, 0, 0⟩) ∧
    (g.animBlendState = .RUN_TO_WALK →
      (blendSwitch true false g).animBlendState = .WALK ∧
        (blendSwitch true false g).played.getLast? =
          some ⟨.walkAnimation, none, g.animator.m_CurrentTime2, 0, 0⟩) := by
  refine ⟨fun hs f r => ?_, fun hs r => ?_, fun hs => ?_, fun hs => ?_⟩ <;>
    simp [blendSwitch, hs, callPlay, hfull, Animator.PlayAnimation]

/-- Witness of C22 amended: IDLE_TO_WALK completing with the second play-head at 3. -/
theorem playhead_handoff_at_completion_witness :
    1 ≤ (globalsAtPlayheads .IDLE_TO_WALK 1 2 3).blendAmount + blendRate ∧
    (globalsAtPlayheads .IDLE_TO_WALK 1 2 3).animBlendState = .IDLE_TO_WALK ∧
    (blendSwitch true false (globalsAtPlayheads .IDLE_TO_WALK 1 2 3)).animBlendState = .WALK ∧
    (blendSwitch true false (globalsAtPlayheads .IDLE_TO_WALK 1 2 3)).played.getLast? =
      some ⟨.walkAnimation, none,
        (globalsAtPlayheads .IDLE_TO_WALK 1 2 3).animator.m_CurrentTime2, 0, 0⟩ :=
  ⟨by norm_num [globalsAtPlayheads, blendRate], rfl,
    (playhead_handoff_at_completion (globalsAtPlayheads .IDLE_TO_WALK 1 2 3)
      (by norm_num [globalsAtPlayheads, blendRate])).1 rfl true false⟩

/-! ## The whole loop: cached displacements and the length of a blend -/

/-- The root-motion part of a frame does not touch the blend globals. -/
theorem rootMotionBlock_globals (w : World) (s : Scene) :
    (rootMotionBlock w s).globals = s.globals := by
  simp only [rootMotionBlock]
  split_ifs <;> rfl

/-- One frame of the loop moves the blend state and weight as the switch does. -/
theorem renderFrame_blend (w : World) (currentFrame : ℚ) (forwardPressed runPressed : Bool)
    (s : Scene) :
    (renderFrame w currentFrame forwardPressed runPressed s).globals.animBlendState =
        (blendSwitch forwardPressed runPressed s.globals).animBlendState ∧
      (renderFrame w currentFrame forwardPressed runPressed s).globals.blendAmount =
        (blendSwitch forwardPressed runPressed s.globals).blendAmount := by
  simp [renderFrame, rootMotionBlock_globals]

/-- One frame of the loop leaves the cached loop displacements alone. -/
theorem renderFrame_rootLoopDisplacements (w : World) (currentFrame : ℚ)
    (forwardPressed runPressed : Bool) (s : Scene) :
    (renderFrame w currentFrame forwardPressed runPressed s).rootLoopDisplacements =
      s.rootLoopDisplacements := by
  simp only [renderFrame]
  rw [(rootMotionBlock_tracking w _).2.2.2]

/-- No number of frames changes the cached loop displacements. -/
theorem runRenderFrames_rootLoopDisplacements (w : World)
    (frames : List (ℚ × Bool × Bool)) :
    ∀ s : Scene, (runRenderFrames w s frames).rootLoopDisplacements = s.rootLoopDisplacements := by
  induction frames with
  | nil => intro s; rfl
  | cons fr rest ih =>
    intro s
    obtain ⟨t, f, r⟩ := fr
    simp only [runRenderFrames]
    rw [ih, renderFrame_rootLoopDisplacements]

/-- C21, as stated, fails for the idle clip: with an idle clip of duration 2 whose root
moves along z, the displacement cached at start-up under the idle clip is the zero
vector, while `EstimateRootLoopDisplacement` of that clip is `(0, 0, 1.9999)`. -/
theorem idle_cache_is_zero :
    (initialScene (worldOf (clipWithRoot 2 (linearBone ⟨0, 0, 1⟩)))).rootLoopDisplacements
        .idleAnimation = some 0 ∧
    EstimateRootLoopDisplacement
        (some ((worldOf (clipWithRoot 2 (linearBone ⟨0, 0, 1⟩))).animation .idleAnimation))
        ROOT_BONE_NAME = ⟨0, 0, 19999 / 10000⟩ ∧
    (initialScene (worldOf (clipWithRoot 2 (linearBone ⟨0, 0, 1⟩)))).rootLoopDisplacements
        .idleAnimation ≠
      some (EstimateRootLoopDisplacement
        (some ((worldOf (clipWithRoot 2 (linearBone ⟨0, 0, 1⟩))).animation .idleAnimation))
        ROOT_BONE_NAME) := by
  have hsample : ∀ t : ℚ, 0 ≤ t → t < 2 →
      SampleRootTranslation (some (clipWithRoot 2 (linearBone ⟨0, 0, 1⟩))) ROOT_BONE_NAME t =
        ⟨0, 0, t⟩ := by
    intro t h0 h1
    simp [SampleRootTranslation, clipWithRoot, wrapTime_of_mem t 2 h0 h1, linearBone,
      Vec3.mul_def]
  have hest : EstimateRootLoopDisplacement
      (some ((worldOf (clipWithRoot 2 (linearBone ⟨0, 0, 1⟩))).animation .idleAnimation))
      ROOT_BONE_NAME = ⟨0, 0, 19999 / 10000⟩ := by
    rw [EstimateRootLoopDisplacement_eq]
    simp only [worldOf, clipWithRoot]
    have h1 := hsample (2 - 1 / 10000) (by norm_num) (by norm_num)
    have h2 := hsample 0 (by norm_num) (by norm_num)
    simp only [clipWithRoot] at h1 h2
    rw [h1, h2]
    norm_num [Vec3.sub_def]
  refine ⟨rfl, hest, ?_⟩
  rw [hest]
  intro heq
  have hz := congrArg Vec3.z (Option.some.inj heq)
  norm_num [initialScene, loadRootLoopDisplacements] at hz

/-- C21, amended: after start-up and after any number of frames, the loop displacement
cached under the walk clip and under the run clip is the net root-bone translation of
that clip over one loop, `SampleRootTranslation(clip, duration - 0.0001) -
SampleRootTranslation(clip, 0)`, the value of `EstimateRootLoopDisplacement`; the
displacement cached under the idle clip is the zero vector. -/
theorem cached_loop_displacements (w : World) (frames : List (ℚ × Bool × Bool)) :
    (runRenderFrames w (initialScene w) frames).rootLoopDisplacements .walkAnimation =
        some (EstimateRootLoopDisplacement (some (w.animation .walkAnimation))
          ROOT_BONE_NAME) ∧
    EstimateRootLoopDisplacement (some (w.animation .walkAnimation)) ROOT_BONE_NAME =
        SampleRootTranslation (some (w.animation .walkAnimation)) ROOT_BONE_NAME
            ((w.animation .walkAnimation).GetDuration - 1 / 10000) -
          SampleRootTranslation (some (w.animation .walkAnimation)) ROOT_BONE_NAME 0 ∧
    (runRenderFrames w (initialScene w) frames).rootLoopDisplacements .runAnimation =
        some (EstimateRootLoopDisplacement (some (w.animation .runAnimation))
          ROOT_BONE_NAME) ∧
    EstimateRootLoopDisplacement (some (w.animation .runAnimation)) ROOT_BONE_NAME =
        SampleRootTranslation (some (w.animation .runAnimation)) ROOT_BONE_NAME
            ((w.animation .runAnimation).GetDuration - 1 / 10000) -
          SampleRootTranslation (some (w.animation .runAnimation)) ROOT_BONE_NAME 0 ∧
    (runRenderFrames w (initialScene w) frames).rootLoopDisplacements .idleAnimation =
        some 0 := by
  rw [runRenderFrames_rootLoopDisplacements]
  exact ⟨rfl, EstimateRootLoopDisplacement_eq _ _, rfl, EstimateRootLoopDisplacement_eq _ _,
    rfl⟩

/-- An IDLE_TO_WALK frame of the switch: it stays, with the weight raised by
`blendRate`, while the raised weight is below 1, and goes to WALK otherwise. -/
theorem blendSwitch_IDLE_TO_WALK (forwardPressed runPressed : Bool) (g : Globals)
    (hstate : g.animBlendState = .IDLE_TO_WALK) :
    (¬ 1 ≤ g.blendAmount + blendRate →
      (blendSwitch forwardPressed runPressed g).animBlendState = .IDLE_TO_WALK ∧
        (blendSwitch forwardPressed runPressed g).blendAmount = g.blendAmount + blendRate) ∧
    (1 ≤ g.blendAmount + blendRate →
      (blendSwitch forwardPressed runPressed g).animBlendState = .WALK) := by
  constructor
  · intro hnot
    have hle : g.blendAmount + blendRate ≤ 1 := le_of_lt (not_le.mp hnot)
    simp [blendSwitch, hstate, callPlay, hnot, hle]
  · intro hfull
    simp [blendSwitch, hstate, callPlay, hfull]

/-- An IDLE_TO_WALK frame of the loop at weight `k / 100000`: it stays in IDLE_TO_WALK
at weight `(k + 1) / 100000` while `k + 1 < 100000`, and goes to WALK at `k + 1 = 100000`. -/
theorem renderFrame_IDLE_TO_WALK (w : World) (currentFrame : ℚ)
    (forwardPressed runPressed : Bool) (s : Scene) (k : ℕ)
    (hstate : s.globals.animBlendState = .IDLE_TO_WALK)
    (hweight : s.globals.blendAmount = (k : ℚ) / 100000) :
    (k + 1 < 100000 →
      (renderFrame w currentFrame forwardPressed runPressed s).globals.animBlendState =
          .IDLE_TO_WALK ∧
        (renderFrame w currentFrame forwardPressed runPressed s).globals.blendAmount =
          ((k + 1 : ℕ) : ℚ) / 100000) ∧
    (k + 1 = 100000 →
      (renderFrame w currentFrame forwardPressed runPressed s).globals.animBlendState =
        .WALK) := by
  obtain ⟨h1, h2⟩ := renderFrame_blend w currentFrame forwardPressed runPressed s
  rw [h1, h2]
  have hsum : s.globals.blendAmount + blendRate = ((k + 1 : ℕ) : ℚ) / 100000 := by
    rw [hweight, blendRate]
    push_cast
    ring
  constructor
  · intro hlt
    have hq : ((k + 1 : ℕ) : ℚ) < 100000 := by exact_mod_cast hlt
    have hnot : ¬ 1 ≤ s.globals.blendAmount + blendRate := by
      rw [hsum, not_le, div_lt_one (by norm_num)]
      exact hq
    obtain ⟨h3, h4⟩ :=
      (blendSwitch_IDLE_TO_WALK forwardPressed runPressed s.globals hstate).1 hnot
    exact ⟨h3, by rw [h4, hsum]⟩
  · intro heq
    have hq : ((k + 1 : ℕ) : ℚ) = 100000 := by exact_mod_cast heq
    have hfull : 1 ≤ s.globals.blendAmount + blendRate := by
      rw [hsum, hq]
      norm_num
    exact (blendSwitch_IDLE_TO_WALK forwardPressed runPressed s.globals hstate).2 hfull

/-- While fewer than 100000 frames have passed since the weight was 0, the machine is
still in IDLE_TO_WALK and the weight counts the frames. -/
theorem runRenderFrames_IDLE_TO_WALK_stays (w : World) (frames : List (ℚ × Bool × Bool)) :
    ∀ (s : Scene) (k : ℕ), s.globals.animBlendState = .IDLE_TO_WALK →
      s.globals.blendAmount = (k : ℚ) / 100000 → k + frames.length < 100000 →
      (runRenderFrames w s frames).globals.animBlendState = .IDLE_TO_WALK ∧
        (runRenderFrames w s frames).globals.blendAmount =
          ((k + frames.length : ℕ) : ℚ) / 100000 := by
  induction frames with
  | nil =>
    intro s k hstate hweight _
    exact ⟨hstate, by simpa using hweight⟩
  | cons fr rest ih =>
    intro s k hstate hweight hlen
    obtain ⟨t, f, r⟩ := fr
    simp only [List.length_cons] at hlen
    obtain ⟨h1, h2⟩ := (renderFrame_IDLE_TO_WALK w t f r s k hstate hweight).1 (by omega)
    have hnext := ih (renderFrame w t f r s) (k + 1) h1 h2 (by omega)
    simp only [runRenderFrames, List.length_cons]
    rw [show k + (rest.length + 1) = k + 1 + rest.length by omega]
    exact hnext

/-- The frame that brings the count to 100000 ends in WALK. -/
theorem runRenderFrames_IDLE_TO_WALK_completes (w : World)
    (frames : List (ℚ × Bool × Bool)) :
    ∀ (s : Scene) (k : ℕ), s.globals.animBlendState = .IDLE_TO_WALK →
      s.globals.blendAmount = (k : ℚ) / 100000 → frames ≠ [] →
      k + frames.length = 100000 →
      (runRenderFrames w s frames).globals.animBlendState = .WALK := by
  induction frames with
  | nil => intro s k _ _ hne; exact absurd rfl hne
  | cons fr rest ih =>
    intro s k hstate hweight _ hlen
    obtain ⟨t, f, r⟩ := fr
    simp only [List.length_cons] at hlen
    simp only [runRenderFrames]
    cases hrest : rest with
    | nil =>
      rw [hrest] at hlen
      simp only [List.length_nil] at hlen
      simp only [runRenderFrames]
      exact (renderFrame_IDLE_TO_WALK w t f r s k hstate hweight).2 (by omega)
    | cons fr2 rest2 =>
      have hlen2 : 0 < rest.length := by rw [hrest]; simp
      obtain ⟨h1, h2⟩ := (renderFrame_IDLE_TO_WALK w t f r s k hstate hweight).1 (by omega)
      rw [← hrest]
      exact ih (renderFrame w t f r s) (k + 1) h1 h2 (by rw [hrest]; simp) (by omega)

/-- C29: with `blendRate = 0.00001` in exact arithmetic, once IDLE_TO_WALK is entered
with weight 0 the machine is still in IDLE_TO_WALK after each of the next 99999 frames
of the loop, with weight `n / 100000` after `n` of them, and is in WALK after the
100000th, for every sequence of key polls and of frame times. -/
theorem blend_length_in_frames (w : World) (s : Scene)
    (frames : List (ℚ × Bool × Bool))
    (hstate : s.globals.animBlendState = .IDLE_TO_WALK)
    (hzero : s.globals.blendAmount = 0) :
    blendRate = 1 / 100000 ∧
    (frames.length ≤ 99999 →
      (runRenderFrames w s frames).globals.animBlendState = .IDLE_TO_WALK ∧
        (runRenderFrames w s frames).globals.blendAmount = (frames.length : ℚ) / 100000) ∧
    (frames.length = 100000 →
      (runRenderFrames w s frames).globals.animBlendState = .WALK) := by
  have hweight : s.globals.blendAmount = ((0 : ℕ) : ℚ) / 100000 := by
    rw [hzero]
    norm_num
  refine ⟨rfl, fun hlen => ?_, fun hlen => ?_⟩
  · have h := runRenderFrames_IDLE_TO_WALK_stays w frames s 0 hstate hweight (by omega)
    simpa using h
  · apply runRenderFrames_IDLE_TO_WALK_completes w frames s 0 hstate hweight
    · intro hnil
      rw [hnil] at hlen
      simp at hlen
    · omega

/-- Witness of C29: three frames with different frame times and keys, from the state
the loop reaches by pressing the forward key in the first frame. -/
theorem blend_length_in_frames_witness :
    (renderFrame (worldOf (clipWithoutBones 1)) 1 true false
        (initialScene (worldOf (clipWithoutBones 1)))).globals.animBlendState = .IDLE_TO_WALK ∧
    (renderFrame (worldOf (clipWithoutBones 1)) 1 true false
        (initialScene (worldOf (clipWithoutBones 1)))).globals.blendAmount = 0 ∧
    (runRenderFrames (worldOf (clipWithoutBones 1))
        (renderFrame (worldOf (clipWithoutBones 1)) 1 true false
          (initialScene (worldOf (clipWithoutBones 1))))
        [(2, false, false), (5, true, true), (5, false, true)]).globals.animBlendState =
      .IDLE_TO_WALK ∧
    (runRenderFrames (worldOf (clipWithoutBones 1))
        (renderFrame (worldOf (clipWithoutBones 1)) 1 true false
          (initialScene (worldOf (clipWithoutBones 1))))
        [(2, false, false), (5, true, true), (5, false, true)]).globals.blendAmount =
      (([(2, false, false), (5, true, true), (5, false, true)] :
        List (ℚ × Bool × Bool)).length : ℚ) / 100000 :=
  have hstate : (renderFrame (worldOf (clipWithoutBones 1)) 1 true false
      (initialScene (worldOf (clipWithoutBones 1)))).globals.animBlendState =
      .IDLE_TO_WALK := by
    rw [(renderFrame_blend _ _ _ _ _).1]
    simp [blendSwitch, callPlay, initialScene, initialGlobals]
  have hzero : (renderFrame (worldOf (clipWithoutBones 1)) 1 true false
      (initialScene (worldOf (clipWithoutBones 1)))).globals.blendAmount = 0 := by
    rw [(renderFrame_blend _ _ _ _ _).2]
    simp [blendSwitch, callPlay, initialScene, initialGlobals]
  ⟨hstate, hzero,
    (blend_length_in_frames (worldOf (clipWithoutBones 1))
      (renderFrame (worldOf (clipWithoutBones 1)) 1 true false
        (initialScene (worldOf (clipWithoutBones 1))))
      [(2, false, false), (5, true, true), (5, false, true)] hstate hzero).2.1
      (by simp)⟩

end SkeletalAnimation

namespace KineticSculpture

/-- C24: for every time the vertical offset of the boat is `0.175 + 0.7 * h(0, 0, t)`,
with `h` the four-term wave height the wave animation of the same frame gives a water
grid vertex; the copy of the wave formula used for the boat agrees with the one of the
water at the grid centre. -/
theorem floatHeight_follows_water (sin cos : ℚ → ℚ) (time : ℚ) :
    floatHeight sin cos time = 175 / 1000 + 7 / 10 * waveHeight sin cos 0 0 time := by
  simp only [floatHeight, waveHeight]
  ring

/-- C25, the code at its own data: `boxIndices` holds 63 indices, 21 triangles, each of
them below the 15 boat vertices, while the boat draw call draws 75 indices; 12 of the
positions it reads, 63 to 74, lie past the end of the index array. -/
theorem boat_draw_reads_past_boxIndices :
    boxIndices.length = 63 ∧ boxIndices.length / 3 = 21 ∧
    boxVertices.length / floatsPerVertex = 15 ∧
    (∀ i ∈ boxIndices, i < boxVertices.length / floatsPerVertex) ∧
    boatDrawCount = 75 ∧ boxIndices.length < boatDrawCount ∧
    boatDrawReads.filter (fun pos => decide (boxIndices.length ≤ pos)) =
      [63, 64, 65, 66, 67, 68, 69, 70, 71, 72, 73, 74] := by
  refine ⟨rfl, rfl, rfl, ?_, rfl, by decide, by decide⟩
  have hv : boxVertices.length / floatsPerVertex = 15 := rfl
  rw [hv]
  decide

end KineticSculpture

namespace Airplane

end Airplane
